import Mathlib

/-!
# Verification of the genY workflow engine

A shallow embedding of the workflow-graph engine of the genY repository
(`backend/service/workflow/...`) together with proofs about the behaviour of
its nodes, the graph compiler wiring, the retry helper, the node registry and
the session invoke result.

Python runtime values are modelled by the inductive type `Value`; Python
dicts (the graph state, node configs and the state deltas returned by node
`execute` functions) are association lists `PyDict` read with Python
`dict.get` semantics.  Each embedded function mirrors one function of the
source; functions of the repository that are not part of the provided
sources (the completion-signal parser, the failure-reason classifier table
and the initial-state constructor) are modelled from the specification and
marked as such in their doc comments.

Typing note: the engine stores well-typed values in the state fields it
reads back (integer counters, string outputs, boolean flags).  Readers such
as `stateInt` fall back to the Python default argument on a value of an
unexpected shape; all theorems below quantify only over states built from
values of the shapes the source actually stores.
-/

namespace GenY

/-- A Python runtime value, as stored in the LangGraph state dict, in node
configs and in the deltas returned by node `execute` functions.
`enum v` models a Python `Enum` member whose `.value` payload is `v`
(the engine stores `CompletionSignal` / `Difficulty` members this way). -/
inductive Value where
  | null
  | bool (b : Bool)
  | int (n : Int)
  | str (s : String)
  | list (elems : List Value)
  | dict (entries : List (String × Value))
  | enum (payload : Value)
  deriving Repr

/-- A Python dict: an association list, first binding wins on lookup
(keys are unique in every dict the engine builds). -/
abbrev PyDict := List (String × Value)

/-- `d.get(k)` — `none` models Python `None` returned on a missing key. -/
def dictGet : PyDict → String → Option Value
  | [], _ => none
  | (k, v) :: rest, key => if k = key then some v else dictGet rest key

/-- `d[k] = v` — overwrite an existing binding in place, else append. -/
def dictSet : PyDict → String → Value → PyDict
  | [], key, value => [(key, value)]
  | (k, v) :: rest, key, value =>
    if k = key then (k, value) :: rest else (k, v) :: dictSet rest key value

/-- `d.update(other)` — assign every binding of `other` into `d` in order. -/
def dictUpdate (d other : PyDict) : PyDict :=
  other.foldl (fun acc kv => dictSet acc kv.1 kv.2) d

/-- Python truthiness of a value (`bool(v)`). -/
def truthy : Value → Bool
  | .null => false
  | .bool b => b
  | .int n => n != 0
  | .str s => s != ""
  | .list elems => !elems.isEmpty
  | .dict entries => !entries.isEmpty
  | .enum _ => true

/-- Truthiness of the result of `state.get(k)` (missing key gives `None`). -/
def truthyOpt : Option Value → Bool
  | some v => truthy v
  | none => false

/-- `config.get(k, default)` read as a string (node configs store string
parameter values for the field-name parameters read this way). -/
def cfgStr (config : PyDict) (k : String) (default : String) : String :=
  match dictGet config k with
  | some (.str s) => s
  | _ => default

/-- `config.get(k, default)` evaluated for truthiness: a present value is
tested with Python truthiness, an absent key yields the default. -/
def cfgTruthy (config : PyDict) (k : String) (default : Bool) : Bool :=
  match dictGet config k with
  | some v => truthy v
  | none => default

/-- `state.get(k, default)` read as an integer.  Python `bool` is an `int`
subclass, so boolean values count as 0/1; values of other shapes fall back
to the default (the engine only stores ints in the counter fields). -/
def stateInt (state : PyDict) (k : String) (default : Int) : Int :=
  match dictGet state k with
  | some (.int n) => n
  | some (.bool b) => if b then 1 else 0
  | _ => default

/-- `state.get(k, "") or ""` — the string value of a state field, with
`None`, a missing key and every other falsy value collapsed to `""`. -/
def stateStrOr (state : PyDict) (k : String) : String :=
  match dictGet state k with
  | some (.str s) => s
  | _ => ""

/-- An `Option String` stored back into a dict (`None` becomes `null`). -/
def optStrValue : Option String → Value
  | some s => .str s
  | none => .null

/-! ## Completion signals

`CompletionSignal` lives in `service/langgraph/state.py`, which is not part
of the provided sources; its members and `.value` strings are modelled from
the specification (signal set `none, continue, complete, blocked, error`). -/

/-- Modelled from the spec: the `CompletionSignal` enum of
`service/langgraph/state.py` (not under the provided sources), with the
five signal values of §4.F. -/
inductive CSignal where
  | sNone
  | sContinue
  | sComplete
  | sBlocked
  | sError
  deriving Repr, DecidableEq

/-- The `.value` string of a `CompletionSignal` member. -/
def CSignal.value : CSignal → String
  | .sNone => "none"
  | .sContinue => "continue"
  | .sComplete => "complete"
  | .sBlocked => "blocked"
  | .sError => "error"

/-- Case-insensitive prefix match: if the lowercase image of `cs` starts
with `pat` (already lowercase), return the remaining original characters. -/
def matchCI : List Char → List Char → Option (List Char)
  | [], rest => some rest
  | _, [] => none
  | p :: ps, c :: cs => if c.toLower = p then matchCI ps cs else none

/-- Characters of a detail text up to the closing bracket of a marker;
`none` when the bracket is never closed (marker not recognised). -/
def untilBracket : List Char → Option (List Char)
  | [] => none
  | c :: cs =>
    if c = ']' then some []
    else (untilBracket cs).map (fun ds => c :: ds)

/-- Python `str.strip()` on a character list (kernel-reducible). -/
def stripChars (cs : List Char) : List Char :=
  ((cs.dropWhile Char.isWhitespace).reverse.dropWhile Char.isWhitespace).reverse

/-- One detail-carrying marker: match `pat` case-insensitively, then read
the reason text up to the closing bracket. -/
def matchDetail (pat : List Char) (cs : List Char) : Option String :=
  match matchCI pat cs with
  | none => none
  | some rest =>
    match untilBracket rest with
    | none => none
    | some ds => some (String.mk (stripChars ds))

/-- Modelled from the spec: the body of `detect_completion_signal`
(`service/langgraph/resilience_nodes.py`, not under the provided sources).
Scan left to right; at each position try the four case-insensitive bracket
markers, so the first marker occurring in the text wins. -/
def scanSignal : List Char → Option (CSignal × Option String)
  | [] => none
  | c :: cs =>
    match matchCI "[task_complete]".data (c :: cs) with
    | some _ => some (.sComplete, none)
    | none =>
      match matchDetail "[blocked:".data (c :: cs) with
      | some d => some (.sBlocked, some d)
      | none =>
        match matchDetail "[error:".data (c :: cs) with
        | some d => some (.sError, some d)
        | none =>
          match matchDetail "[continue:".data (c :: cs) with
          | some d => some (.sContinue, some d)
          | none => scanSignal cs

/-- Modelled from the spec: `detect_completion_signal(text)` of §4.F —
`(signal, detail)`, `(none, null)` when no marker is present. -/
def detectCompletionSignal (text : String) : CSignal × Option String :=
  match scanSignal text.data with
  | some r => r
  | none => (.sNone, none)

/-! ## PostModelNode (`workflow/nodes/guard_nodes.py`) -/

/-- `PostModelNode.execute(state, context, config)` — the returned updates
dict.  Transcript recording (concern 3) only talks to the memory manager
and contributes nothing to the returned delta, so it does not appear here.
The `updates` dict is built in source order: counter field and
`current_step` first, then the completion-signal fields when detection is
enabled. -/
def postModelExecute (state config : PyDict) : PyDict :=
  let incrementField := cfgStr config "increment_field" "iteration"
  let sourceField := cfgStr config "source_field" "last_output"
  let iteration := stateInt state incrementField 0 + 1
  let detect := cfgTruthy config "detect_completion" true
  let updates : PyDict :=
    dictSet (dictSet [] incrementField (.int iteration))
      "current_step" (.str "post_model")
  let lastOutput := stateStrOr state sourceField
  if detect && (lastOutput == "") then
    dictSet (dictSet updates "completion_signal" (.str CSignal.sNone.value))
      "completion_detail" .null
  else if detect && (lastOutput != "") then
    let sd := detectCompletionSignal lastOutput
    dictSet (dictSet updates "completion_signal" (.str sd.1.value))
      "completion_detail" (optStrValue sd.2)
  else
    updates

/-! ## IterationGateNode (`workflow/nodes/logic_nodes.py`) -/

/-- Python `str(v)` for the value shapes the engine renders into messages.
Containers and enum members are rendered in abbreviated form (no theorem
below renders such a value into a message string). -/
def pyStr : Value → String
  | .null => "None"
  | .bool b => if b then "True" else "False"
  | .int n => toString n
  | .str s => s
  | .list _ => "[...]"
  | .dict _ => "\x7b...\x7d"
  | .enum _ => "<enum>"

/-- `int(config.get(k, default))` for the gate's numeric override.  The
engine stores the override as a number; the `int()` coercion of a
non-numeric value (which would raise in Python) is outside the state space
quantified over by the theorems below, so non-numeric shapes keep the
default here. -/
def cfgIntD (config : PyDict) (k : String) (default : Int) : Int :=
  match dictGet config k with
  | some (.int n) => n
  | some (.bool b) => if b then 1 else 0
  | _ => default

/-- `IterationGateNode.execute(state, context, config)` — the returned
updates dict.  The four stop checks run in source order, each only when no
earlier check produced a `stop_reason`. -/
def iterationGateExecute (state config : PyDict) : PyDict :=
  let iteration := stateInt state "iteration" 0
  let maxIterOverride := cfgIntD config "max_iterations_override" 0
  let maxIterations :=
    if maxIterOverride > 0 then maxIterOverride
    else stateInt state "max_iterations" 50
  let checkIteration := cfgTruthy config "check_iteration" true
  let checkBudget := cfgTruthy config "check_budget" true
  let checkCompletion := cfgTruthy config "check_completion" true
  let customStopField := cfgStr config "custom_stop_field" ""
  -- Check 1: iteration limit
  let stop1 : Option String :=
    if checkIteration && decide (iteration ≥ maxIterations) then
      some ("Iteration limit (" ++ toString iteration ++ "/" ++
            toString maxIterations ++ ")")
    else none
  -- Check 2: context budget (`state.get("context_budget") or {}`)
  let stop2 : Option String :=
    match stop1 with
    | some r => some r
    | none =>
      if checkBudget then
        match dictGet state "context_budget" with
        | some (.dict budget) =>
          match dictGet budget "status" with
          | some (.str s) =>
            if s == "block" || s == "overflow" then
              some ("Context budget " ++ s)
            else none
          | _ => none
        | _ => none
      else none
  -- Check 3: completion signal
  let stop3 : Option String :=
    match stop2 with
    | some r => some r
    | none =>
      if checkCompletion then
        match dictGet state "completion_signal" with
        | some (.str s) =>
          if s == CSignal.sComplete.value || s == CSignal.sBlocked.value ||
             s == CSignal.sError.value then
            some ("Completion signal: " ++ s)
          else none
        | _ => none
      else none
  -- Check 4: custom stop field
  let stopReason : Option String :=
    match stop3 with
    | some r => some r
    | none =>
      if customStopField != "" then
        match dictGet state customStopField with
        | some v =>
          if truthy v then
            some ("Custom stop: " ++ customStopField ++ "=" ++ pyStr v)
          else none
        | none => none
      else none
  match stopReason with
  | some r =>
    let md := match dictGet state "metadata" with
      | some (.dict m) => m
      | _ => []
    dictSet (dictSet (dictSet [] "is_complete" (.bool true))
        "gate_stop_reason" (.str r))
      "metadata"
      (.dict (dictSet (dictSet md "gate_stop_reason" (.str r))
        "stopped_at_iteration" (.int iteration)))
  | none =>
    dictSet [] "gate_stop_reason" .null

/-- The routing function returned by
`IterationGateNode.get_routing_function` (it ignores the config). -/
def iterationGateRoute (state : PyDict) : String :=
  if truthyOpt (dictGet state "is_complete") ||
     truthyOpt (dictGet state "error") then "stop"
  else "continue"

/-! ## ConditionalRouterNode (`workflow/nodes/logic_nodes.py`) -/

/-- `ConditionalRouterNode.execute` — pure routing, no state changes
beyond the advisory step label. -/
def condRouterExecute (_state _config : PyDict) : PyDict :=
  [("current_step", .str "routed")]

/-- `value.strip().lower()` on a Python string (char-list based so that it
kernel-reduces). -/
def pyStripLower (s : String) : String :=
  String.mk ((stripChars s.data).map Char.toLower)

/-- Lookup in a string-to-string mapping (`route_map.get`). -/
def strMapGet : List (String × String) → String → Option String
  | [], _ => none
  | (k, v) :: rest, key => if k = key then some v else strMapGet rest key

/-- The `_route` closure built by
`ConditionalRouterNode.get_routing_function`.  The enclosing builder
extracts `routing_field`, `default_port` and the (JSON-decoded) `route_map`
from the node config; the closure itself reads and normalises the state
value: unwrap an enum member via its `.value`, strip/lowercase a string,
then look `str(value)` up in the route map with `default_port` as the
fallback, and route to `default_port` outright when the value is `None`
or the key is missing. -/
def condRouterRoute (routingField defaultPort : String)
    (routeMap : List (String × String)) (state : PyDict) : String :=
  let value := dictGet state routingField
  let value := match value with
    | some (.enum payload) => some payload
    | v => v
  let value := match value with
    | some (.str s) => some (Value.str (pyStripLower s))
    | v => v
  match value with
  | none => defaultPort
  | some .null => defaultPort
  | some v =>
    match strMapGet routeMap (pyStr v) with
    | some port => port
    | none => defaultPort

/-! ## NodeRegistry (`workflow/nodes/base.py`) -/

/-- `NodeRegistry.get(node_type)` over the registry dict `reg` (whose keys
are never empty: `register` rejects an empty `node_type`) and the alias
dict `aliases`: a direct hit wins; otherwise the alias table is consulted
once and a truthy canonical name is looked up directly in the registry
dict — a second alias hop never happens. -/
def registryGet {α : Type} (reg : List (String × α))
    (aliases : List (String × String)) (nodeType : String) : Option α :=
  match List.lookup nodeType reg with
  | some node => some node
  | none =>
    match List.lookup nodeType aliases with
    | some canonical =>
      if canonical != "" then List.lookup canonical reg else none
    | none => none

/-! ## ExecutionContext.resilient_invoke (`workflow/nodes/base.py`)

The failure-reason enum and the recoverable set live in
`service/langgraph/model_fallback.py`, which is not part of the provided
sources; both are modelled from the specification (§4.F error classifier).
The retry loop itself is translated from `resilient_invoke`. -/

/-- Modelled from the spec: `FailureReason` of
`service/langgraph/model_fallback.py` (not under the provided sources). -/
inductive FailureReason where
  | rateLimited
  | overloaded
  | timeoutReason
  | networkError
  | authError
  | invalidInput
  | internalError
  | unknownReason
  deriving Repr, DecidableEq

/-- Modelled from the spec: `is_recoverable` of
`service/langgraph/model_fallback.py` — the recoverable set is
rate-limited, overloaded, timeout and network error. -/
def isRecoverable : FailureReason → Bool
  | .rateLimited => true
  | .overloaded => true
  | .timeoutReason => true
  | .networkError => true
  | _ => false

/-- The `delay_map.get(reason, 2.0)` backoff table of `resilient_invoke`
(whole seconds, so `Nat` carries the exact values 5.0 / 3.0 / 2.0). -/
def backoffDelay : FailureReason → Nat
  | .rateLimited => 5
  | .overloaded => 3
  | .timeoutReason => 2
  | .networkError => 2
  | _ => 2

/-- The observable trace of one `resilient_invoke` call: the sleeps
performed between attempts, and either the response with the attempt index
it succeeded at, or the classified error that escaped the loop. -/
structure InvokeTrace (α : Type) where
  sleeps : List Nat
  result : Except FailureReason (α × Nat)
  deriving Repr

/-- The retry loop of `ExecutionContext.resilient_invoke` from attempt
index `attempt` on, with each model call's outcome given by `script`
(the exception already classified).  A failure retries exactly when it is
recoverable and `attempt < maxRetries`; otherwise the in-flight error is
rethrown.  Before a retry the loop sleeps
`delay_map.get(reason, 2.0) * (attempt + 1)` seconds. -/
def resilientInvokeFrom {α : Type} (maxRetries : Nat)
    (script : Nat → Except FailureReason α) (attempt : Nat) :
    InvokeTrace α :=
  match script attempt with
  | .ok response => ⟨[], .ok (response, attempt)⟩
  | .error reason =>
    if h : isRecoverable reason = true ∧ attempt < maxRetries then
      let rest := resilientInvokeFrom maxRetries script (attempt + 1)
      ⟨backoffDelay reason * (attempt + 1) :: rest.sleeps, rest.result⟩
    else ⟨[], .error reason⟩
termination_by maxRetries - attempt
decreasing_by omega

/-- `resilient_invoke` — the retry loop started at attempt 0. -/
def resilientInvoke {α : Type} (maxRetries : Nat)
    (script : Nat → Except FailureReason α) : InvokeTrace α :=
  resilientInvokeFrom maxRetries script 0

/-! ## WorkflowExecutor edge wiring (`workflow/workflow_executor.py`) -/

/-- A `WorkflowEdge` of `workflow/workflow_model.py` as `compile` consumes
it: source and target instance ids and the optional source port. -/
structure WorkflowEdge where
  source : String
  target : String
  sourcePort : Option String
  deriving Repr, DecidableEq

/-- `edge.source_port or "default"` — the port key used for edge maps. -/
def edgePort (e : WorkflowEdge) : String :=
  match e.sourcePort with
  | some p => if p != "" then p else "default"
  | none => "default"

/-- `WorkflowExecutor._has_multiple_targets` — whether the edges of one
source reach more than one distinct target. -/
def hasMultipleTargets (edges : List WorkflowEdge) : Bool :=
  decide (1 < ((edges.map (fun e => e.target)).dedup).length)

/-- LangGraph's `END` sentinel (the terminal node id). -/
def endSentinel : String := "__end__"

/-- `WorkflowExecutor._resolve_target` — map an `end` pseudo-node to the
terminal sentinel; `instanceTypes` is the `instance_id → node_type` view of
the instance map. -/
def resolveTarget (instanceTypes : List (String × String))
    (targetId : String) : String :=
  match List.lookup targetId instanceTypes with
  | some t => if t = "end" then endSentinel else targetId
  | none => targetId

/-- `WorkflowExecutor._build_edge_map` — the port-to-target mapping for
conditional wiring (later edges with the same port overwrite earlier
ones, as dict assignment does). -/
def buildEdgeMap (instanceTypes : List (String × String))
    (edges : List WorkflowEdge) : List (String × String) :=
  edges.foldl
    (fun m e =>
      let port := edgePort e
      let target := resolveTarget instanceTypes e.target
      if (strMapGet m port).isSome then
        m.map (fun kv => if kv.1 = port then (kv.1, target) else kv)
      else m ++ [(port, target)])
    []

/-- `WorkflowExecutor._make_fallback_router` — a router that always
returns the first outgoing edge's port. -/
def fallbackRouter (edges : List WorkflowEdge) : PyDict → String :=
  fun _ =>
    match edges.head? with
    | some e => edgePort e
    | none => "default"

/-- The outbound wiring `compile` registers for one source node: either a
plain direct edge or conditional edges with a routing function and a
port-to-target map. -/
inductive Wiring where
  | direct (target : String)
  | conditional (routing : PyDict → String) (edgeMap : List (String × String))

/-- The wiring decision of `WorkflowExecutor.compile` for one regular
(non-start, non-end) source node with outgoing edges `edges` (compile
groups edges by source, so the list is non-empty; the empty case is
unreachable).  `routingFn` is what the node type's
`get_routing_function(config)` returns; it is consulted only on the
conditional branch. -/
def wireSource (routingFn : Option (PyDict → String))
    (instanceTypes : List (String × String))
    (edges : List WorkflowEdge) : Wiring :=
  if hasMultipleTargets edges then
    let routing := match routingFn with
      | some f => f
      | none => fallbackRouter edges
    .conditional routing (buildEdgeMap instanceTypes edges)
  else
    .direct (resolveTarget instanceTypes
      (match edges.head? with | some e => e.target | none => endSentinel))

/-! ## Graph runtime walk and `WorkflowExecutor.run`

`WorkflowExecutor.run` (lines 182–210) compiles the workflow if needed,
builds the initial state with `make_initial_autonomous_state(input_text,
max_iterations=...)` and calls `self._graph.ainvoke(initial_state)` — it
configures no recursion limit, no step budget and no cancellation, and it
inspects nothing on the way.  The walk performed by the compiled state
machine is the external graph library's; it is modelled from the
specification (§4.H): invoke the current node, merge its delta, follow
the direct edge or the routing function, stop at the terminal sentinel.
`fuel` is only the embedding's termination device — the walk itself
carries no cap. -/

/-- Modelled from the spec: the state-merge discipline of §4.H (the merge
reducers live in `service/langgraph/state.py`, not under the provided
sources): shallow per-field assignment, except `messages`, which appends
list deltas. -/
def mergeState (state delta : PyDict) : PyDict :=
  delta.foldl
    (fun st kv =>
      if kv.1 = "messages" then
        match dictGet st "messages", kv.2 with
        | some (.list xs), .list ys => dictSet st "messages" (.list (xs ++ ys))
        | _, v => dictSet st "messages" v
      else dictSet st kv.1 kv.2)
    state

/-- Modelled from the spec: `make_initial_autonomous_state(input_text,
max_iterations=...)` of `service/langgraph/state.py` (not under the
provided sources) — the initial run state of §4.H / §3. -/
def makeInitialAutonomousState (inputText : String) (maxIterations : Int) :
    PyDict :=
  [("input", .str inputText),
   ("messages", .list []),
   ("last_output", .str ""),
   ("iteration", .int 0),
   ("max_iterations", .int maxIterations),
   ("is_complete", .bool false),
   ("error", .null)]

/-- A compiled workflow graph: entry node, node functions (each a
`BaseNode.execute` closed over its instance config and the execution
context) and the per-source wiring. -/
structure CompiledGraph where
  entry : String
  nodes : List (String × (PyDict → PyDict))
  wiring : List (String × Wiring)

/-- Look up a node function of a compiled graph. -/
def graphNode (g : CompiledGraph) (nodeId : String) :
    Option (PyDict → PyDict) :=
  match g.nodes.find? (fun kv => kv.1 = nodeId) with
  | some kv => some kv.2
  | none => none

/-- Look up the outbound wiring of a node. -/
def graphWiring (g : CompiledGraph) (nodeId : String) : Option Wiring :=
  match g.wiring.find? (fun kv => kv.1 = nodeId) with
  | some kv => some kv.2
  | none => none

/-- Modelled from the spec: the §4.H walk of a compiled graph, counting
node invocations.  Returns the final state and the number of node
invocations, or `none` when `fuel` (the embedding's recursion bound, not
anything the engine enforces) runs out or the graph is malformed. -/
def runSteps (g : CompiledGraph) : Nat → PyDict → String → Nat →
    Option (PyDict × Nat)
  | 0, _, _, _ => none
  | fuel + 1, state, nodeId, count =>
    if nodeId = endSentinel then some (state, count)
    else
      match graphNode g nodeId with
      | none => none
      | some fn =>
        let merged := mergeState state (fn state)
        match graphWiring g nodeId with
        | some (.direct t) => runSteps g fuel merged t (count + 1)
        | some (.conditional route edgeMap) =>
          match strMapGet edgeMap (route merged) with
          | some t => runSteps g fuel merged t (count + 1)
          | none => none
        | none => none

/-- `WorkflowExecutor.run(input_text, max_iterations)` — build the initial
state and hand it to the compiled graph's walk unchanged; no step budget,
recursion limit or cancellation is configured. -/
def workflowRun (g : CompiledGraph) (inputText : String)
    (maxIterations : Int) (fuel : Nat) : Option (PyDict × Nat) :=
  runSteps g fuel (makeInitialAutonomousState inputText maxIterations)
    g.entry 0

/-! ## AgentSession.invoke result (`langgraph/agent_session.py`) -/

/-- `state.get(k, "")` for a field the engine stores as a string
(`None` and a missing key give the empty string). -/
def getStrD (result : PyDict) (k : String) : String :=
  match dictGet result k with
  | some (.str s) => s
  | _ => ""

/-- The value `AgentSession.invoke` returns, as a function of the final
graph state and the session's autonomous flag (lines 892–956).
Autonomous runs return `result.get("final_answer", "") or
result.get("answer", "")`; plain-graph runs return
`result.get("last_output", "")`; in both modes a truthy `error` field
short-circuits to an `"Error: ..."` string. -/
def invokeResult (autonomous : Bool) (result : PyDict) : String :=
  let hasError := truthyOpt (dictGet result "error")
  let errText := "Error: " ++ pyStr ((dictGet result "error").getD .null)
  if autonomous then
    let finalOutput :=
      let fa := getStrD result "final_answer"
      if fa != "" then fa else getStrD result "answer"
    if hasError then errText else finalOutput
  else
    let finalOutput := getStrD result "last_output"
    if hasError then errText else finalOutput

/-- The claim's reading of the invoke result, written from the
specification's words (`final_answer` if set, else `last_output`); used
only to compare against the source behaviour `invokeResult`. -/
def claimedInvokeResult (result : PyDict) : String :=
  let fa := getStrD result "final_answer"
  if fa != "" then fa else getStrD result "last_output"

/-! ## Python exceptions and `str.format`

The model nodes of `workflow/nodes/model_nodes.py` wrap their model call
in `try/except Exception`, but some of their code runs before the `try`.
To settle what escapes, Python's `str.format(**kwargs)` is modelled for
the template language the engine uses: literal text, doubled-brace
escapes and plain `\x7bname\x7d` fields (conversion/format-spec syntax is
not used by the engine's templates and is outside the modelled space).
Exception message texts are abbreviated, not byte-for-byte CPython. -/

/-- A Python exception as the nodes observe it.  `modelError` stands for
any exception escaping the (retry-exhausted) model call. -/
inductive PyExc where
  | valueError (msg : String)
  | keyError (key : String)
  | indexError (msg : String)
  | typeError (msg : String)
  | modelError (msg : String)
  deriving Repr, DecidableEq

/-- `str(e)` (for `KeyError` CPython shows the quoted key). -/
def pyExcStr : PyExc → String
  | .valueError msg => msg
  | .keyError key => "\x27" ++ key ++ "\x27"
  | .indexError msg => msg
  | .typeError msg => msg
  | .modelError msg => msg

/-- Split a format string at the closing brace of a replacement field:
the field name and the remaining characters. -/
def splitAtBrace : List Char → Option (List Char × List Char)
  | [] => none
  | c :: cs =>
    if c = '}' then some ([], cs)
    else (splitAtBrace cs).map (fun p => (c :: p.1, p.2))

theorem splitAtBrace_shorter {cs name rest : List Char}
    (h : splitAtBrace cs = some (name, rest)) : rest.length < cs.length := by
  induction cs generalizing name rest with
  | nil => simp [splitAtBrace] at h
  | cons c cs ih =>
    rw [splitAtBrace] at h
    by_cases hc : c = '}'
    · rw [if_pos hc] at h
      cases h
      simp
    · rw [if_neg hc] at h
      cases hsp : splitAtBrace cs with
      | none => rw [hsp] at h; simp at h
      | some p =>
        rw [hsp] at h
        simp at h
        have hlt := @ih p.1 p.2 (by rw [hsp])
        rw [← h.2]
        simp only [List.length_cons]
        omega

/-- Python `template.format(**kwargs)` for the engine's template subset:
`lookup` is the keyword-argument mapping; a lone `\x7b` or `\x7d` raises
`ValueError`, an empty field name raises `IndexError` (auto-numbering
with no positional arguments), an unknown name raises `KeyError`. -/
def pyFormat (lookup : String → Option String) (cs : List Char) :
    Except PyExc (List Char) :=
  match cs with
  | [] => .ok []
  | '{' :: '{' :: rest2 => (pyFormat lookup rest2).map (fun ds => '{' :: ds)
  | '}' :: '}' :: rest2 => (pyFormat lookup rest2).map (fun ds => '}' :: ds)
  | '}' :: _ => .error (.valueError "Single \x7d encountered in format string")
  | '{' :: rest =>
    match h : splitAtBrace rest with
    | none => .error (.valueError "Single \x7b encountered in format string")
    | some (name, rest2) =>
      if name.isEmpty then
        .error (.indexError "Replacement index 0 out of range")
      else
        match lookup (String.mk name) with
        | none => .error (.keyError (String.mk name))
        | some v => (pyFormat lookup rest2).map (fun ds => v.data ++ ds)
  | c :: rest => (pyFormat lookup rest).map (fun ds => c :: ds)
termination_by cs.length
decreasing_by
  all_goals simp only [List.length_cons]
  all_goals try omega
  all_goals (have hlt := splitAtBrace_shorter h; omega)

/-- The keyword-argument map `_safe_format` builds from the state:
strings pass through, `None` becomes the empty string, other values are
stringified. -/
def stateFormatMap (state : PyDict) : String → Option String :=
  fun k =>
    (dictGet state k).map (fun v =>
      match v with
      | .str s => s
      | .null => ""
      | v => pyStr v)

/-- `_safe_format(template, state)` of `workflow/nodes/model_nodes.py`:
`KeyError` and `IndexError` fall back to the literal template; every
other exception (notably `ValueError` from a malformed template)
propagates. -/
def safeFormat (template : String) (state : PyDict) : Except PyExc String :=
  match pyFormat (stateFormatMap state) template.data with
  | .ok ds => .ok (String.mk ds)
  | .error (.keyError _) => .ok template
  | .error (.indexError _) => .ok template
  | .error e => .error e

/-! ## Category / int / output-field parsing (`model_nodes.py` helpers) -/

/-- Split a character list on a separator (the groups, in order). -/
def splitChars (sep : Char) : List Char → List (List Char)
  | [] => [[]]
  | c :: cs =>
    match splitChars sep cs with
    | [] => [[c]]
    | g :: gs => if c = sep then [] :: g :: gs else (c :: g) :: gs

/-- `str(c).strip()` truthiness filter plus `strip().lower()`
normalisation used by `_parse_categories`. -/
def catNorm (s : String) : Option String :=
  let t := stripChars s.data
  if t.isEmpty then none else some (String.mk (t.map Char.toLower))

/-- Strip one layer of matching double or single quotes. -/
def stripQuotes (cs : List Char) : List Char :=
  match cs with
  | [] => []
  | c :: rest =>
    if (c = '"' ∨ c = '\x27') ∧ rest.getLast? = some c then rest.dropLast
    else c :: rest

/-- `_parse_categories(raw, fallback)` — flexible category parsing:
an already-parsed list is normalised element-wise; a string is tried as a
(single-quote-tolerant) JSON array of quoted scalars, else split on
commas; anything yielding no categories falls back.  JSON decoding is
modelled for the flat arrays the engine's configs use. -/
def parseCategories (raw : Value) (fallback : List String) : List String :=
  match raw with
  | .list xs =>
    let cats := xs.filterMap (fun c => catNorm (pyStr c))
    if cats.isEmpty then fallback else cats
  | .str s =>
    let t := stripChars s.data
    if t.isEmpty then fallback
    else if t.head? = some '[' ∧ t.getLast? = some ']' then
      let inner := (t.drop 1).dropLast
      let cats := (splitChars ',' inner).filterMap (fun item =>
        catNorm (String.mk (stripQuotes (stripChars item))))
      if cats.isEmpty then fallback else cats
    else if t.head? = some '{' then fallback
    else
      let cats := (splitChars ',' t).filterMap (fun p => catNorm (String.mk p))
      if cats.isEmpty then fallback else cats
  | _ => fallback

/-- The numeric value of a non-empty digit string. -/
def digitsVal (cs : List Char) : Option Nat :=
  if cs.isEmpty then none
  else if cs.all Char.isDigit then
    some (cs.foldl (fun a c => a * 10 + (c.toNat - '0'.toNat)) 0)
  else none

/-- `int(s)` on a string: optional sign and decimal digits after
stripping (underscore digit grouping is not used by the engine). -/
def pyIntOfStr (s : String) : Option Int :=
  match stripChars s.data with
  | '-' :: ds => (digitsVal ds).map (fun n => -(n : Int))
  | '+' :: ds => (digitsVal ds).map (fun n => (n : Int))
  | ds => (digitsVal ds).map (fun n => (n : Int))

/-- Python `int(v)`: ints and bools pass, numeric strings parse, and
everything else raises. -/
def pyIntExc : Value → Except PyExc Int
  | .int n => .ok n
  | .bool b => .ok (if b then 1 else 0)
  | .str s =>
    match pyIntOfStr s with
    | some n => .ok n
    | none => .error (.valueError ("invalid literal for int with base 10: " ++ s))
  | .null => .error (.typeError "int argument must not be NoneType")
  | _ => .error (.typeError "int argument is not a number or string")

/-- `config.get(k, default)` as a raw value. -/
def dictGetD (d : PyDict) (k : String) (default : Value) : Value :=
  (dictGet d k).getD default

/-- A minimal JSON decode of an array of quoted strings (the shape the
`output_fields` configs hold); `none` for a decode error or a non-array
result. -/
def parseJsonStringArr (raw : String) : Option (List String) :=
  let t := stripChars raw.data
  if t.head? = some '[' ∧ t.getLast? = some ']' then
    let inner := (t.drop 1).dropLast
    if (stripChars inner).isEmpty then some []
    else
      (splitChars ',' inner).foldr
        (fun item acc =>
          match acc with
          | none => none
          | some fields =>
            match stripChars item with
            | '"' :: rest =>
              if rest.getLast? = some '"' then
                some (String.mk rest.dropLast :: fields)
              else none
            | _ => none)
        (some [])
  else none

/-- The `output_fields` parsing shared by `direct_answer` and `answer`:
a string config is JSON-decoded with the default on failure; a non-list
result falls back to the default; a missing key uses the default (the
JSON default literal decodes to exactly `default`). -/
def outputFieldsOf (config : PyDict) (k : String) (default : List String) :
    List String :=
  match dictGet config k with
  | none => default
  | some (.str raw) =>
    match parseJsonStringArr raw with
    | some fields => fields
    | none => default
  | some (.list xs) => xs.map pyStr
  | some _ => default

/-! ## Model nodes (`workflow/nodes/model_nodes.py`)

Each `execute` is a function of the state, the node config and the
outcome of its (retry-wrapped) model call: `modelOutcome` is the
response-derived data on success and the escaping exception on failure.
The returned `Except` is the node's own behaviour towards the runtime —
`ok delta` for a normal return, `error e` for an exception the node lets
propagate.  Prompt text that only flows into the model call (and never
into the returned delta) is not tracked beyond the exceptions its
construction can raise. -/

/-- The delta every model node returns from its
`except Exception` handler. -/
def errorDelta (e : PyExc) : PyDict :=
  [("error", .str (pyExcStr e)), ("is_complete", .bool true)]

/-- Modelled from the spec: the default prompt constants of
`service/prompt/sections.py` (not under the provided sources).  Their
text only flows into model calls, never into a returned delta, so any
well-formed template stands in for them. -/
def classifyPromptDefault : String := "Classify: \x7binput\x7d"

/-- Modelled from the spec: `AutonomousPrompts.retry_with_feedback()`
(see `classifyPromptDefault`). -/
def retryFeedbackPromptDefault : String :=
  "Feedback: \x7bprevious_feedback\x7d Task: \x7binput_text\x7d"

/-- Modelled from the spec: `AutonomousPrompts.review()`
(see `classifyPromptDefault`). -/
def reviewPromptDefault : String :=
  "Question: \x7bquestion\x7d Answer: \x7banswer\x7d"

/-- Modelled from the spec: the `Difficulty` enum of
`service/langgraph/state.py` (not under the provided sources) — the
`Difficulty(matched)` constructor succeeds exactly on its member values
easy / medium / hard. -/
def difficultyOfStr (s : String) : Option String :=
  if s = "easy" ∨ s = "medium" ∨ s = "hard" then some s else none

/-- `ClassifyNode.execute` — the whole body (template formatting, model
call, result assembly) is inside the `try`; `modelOutcome` carries the
validated classification string and the fallback updates of the
structured call. -/
def classifyExecute (state config : PyDict)
    (modelOutcome : Except PyExc (String × PyDict)) : Except PyExc PyDict :=
  let inputText := getStrD state "input"
  let template := cfgStr config "prompt_template" classifyPromptDefault
  let outputField := cfgStr config "output_field" "difficulty"
  let categories :=
    parseCategories (dictGetD config "categories" (.str "easy, medium, hard"))
      ["easy", "medium", "hard"]
  let defaultCat0 := cfgStr config "default_category" "medium"
  -- default_category repair; it only parameterises the structured model
  -- call (coercion default), so it does not reappear below
  let _defaultCat :=
    if categories.contains defaultCat0 then defaultCat0
    else if 1 < categories.length then categories.getD 1 ""
    else categories.headD ""
  match safeFormat template (dictSet state "input" (.str inputText)) with
  | .error e => .ok (errorDelta e)
  | .ok _prompt =>
    match modelOutcome with
    | .error e => .ok (errorDelta e)
    | .ok (matched, fallback) =>
      let storeValue : Value :=
        if outputField = "difficulty" then
          match difficultyOfStr matched with
          | some d => .enum (.str d)
          | none => .str matched
        else .str matched
      let result :=
        dictSet (dictSet (dictSet (dictSet [] outputField storeValue)
          "current_step" (.str "classified"))
          "messages" (.list [.str inputText]))
          "last_output" (.str matched)
      .ok (dictUpdate result fallback)

/-- `DirectAnswerNode.execute` — config parsing and the
`_safe_format` call run BEFORE the `try`, so an exception there (a
malformed template raising `ValueError`) propagates to the runtime;
only the model call and result assembly are guarded. -/
def directAnswerExecute (state config : PyDict)
    (modelOutcome : Except PyExc (String × PyDict)) : Except PyExc PyDict :=
  let template := cfgStr config "prompt_template" "\x7binput\x7d"
  let markComplete := cfgTruthy config "mark_complete" true
  let outputFields := outputFieldsOf config "output_fields"
    ["answer", "final_answer"]
  match safeFormat template state with
  | .error e => .error e
  | .ok _prompt =>
    match modelOutcome with
    | .error e => .ok (errorDelta e)
    | .ok (answer, fallback) =>
      let result :=
        dictSet (dictSet (dictSet [] "messages" (.list [.str answer]))
          "last_output" (.str answer))
          "current_step" (.str "direct_answer_complete")
      let result :=
        outputFields.foldl (fun r f => dictSet r f (.str answer)) result
      let result :=
        if markComplete then dictSet result "is_complete" (.bool true)
        else result
      .ok (dictUpdate result fallback)

/-- `AnswerNode.execute` — the prompt construction (retry template with
feedback, or the primary template through `_safe_format`) happens inside
the `try`: its exceptions are converted to an error delta, never
propagated.  The retry branch's own `format` call guards only
`KeyError`/`IndexError` (falling back to the bare input text). -/
def answerExecute (state config : PyDict)
    (modelOutcome : Except PyExc (String × PyDict)) : Except PyExc PyDict :=
  let inputText := getStrD state "input"
  let feedbackField := cfgStr config "feedback_field" "review_feedback"
  let countField := cfgStr config "count_field" "review_count"
  let reviewCount := stateInt state countField 0
  let previousFeedback := dictGet state feedbackField
  let outputFields := outputFieldsOf config "output_fields" ["answer"]
  let promptRes : Except PyExc String :=
    if truthyOpt previousFeedback && decide (reviewCount > 0) then
      -- (the budget-aware truncation only shortens the prompt text)
      let fbStr := match previousFeedback with
        | some (.str s) => s
        | _ => ""
      let retryTemplate :=
        cfgStr config "retry_template" retryFeedbackPromptDefault
      match pyFormat
          (fun k =>
            if k = "previous_feedback" then some fbStr
            else if k = "input_text" then some inputText
            else none)
          retryTemplate.data with
      | .ok ds => .ok (String.mk ds)
      | .error (.keyError _) => .ok inputText
      | .error (.indexError _) => .ok inputText
      | .error e => .error e
    else
      safeFormat (cfgStr config "prompt_template" "\x7binput\x7d") state
  match promptRes with
  | .error e => .ok (errorDelta e)
  | .ok _prompt =>
    match modelOutcome with
    | .error e => .ok (errorDelta e)
    | .ok (answer, fallback) =>
      let result :=
        dictSet (dictSet (dictSet [] "messages" (.list [.str answer]))
          "last_output" (.str answer))
          "current_step" (.str "answer_generated")
      let result :=
        outputFields.foldl (fun r f => dictSet r f (.str answer)) result
      .ok (dictUpdate result fallback)

/-- `ReviewNode.execute` — `int(config.get("max_retries", 3))` runs BEFORE
the `try`, so a non-numeric `max_retries` config raises out of the node;
everything from the prompt construction on is guarded.  `modelOutcome`
carries the validated `(verdict, feedback)` pair and the fallback updates
of the structured call. -/
def reviewExecute (state config : PyDict)
    (modelOutcome : Except PyExc ((String × String) × PyDict)) :
    Except PyExc PyDict :=
  let countField := cfgStr config "count_field" "review_count"
  let reviewCount := stateInt state countField 0 + 1
  match pyIntExc (dictGetD config "max_retries" (.int 3)) with
  | .error e => .error e
  | .ok maxRetries =>
    let answerField := cfgStr config "answer_field" "answer"
    let outputField := cfgStr config "output_field" "review_result"
    let verdicts :=
      parseCategories (dictGetD config "verdicts" (.str "approved, retry"))
        ["approved", "retry"]
    let defaultVerdict0 := cfgStr config "default_verdict" "retry"
    -- default_verdict repair; like classify's default category it only
    -- parameterises the structured model call
    let _defaultVerdict :=
      if verdicts.contains defaultVerdict0 then defaultVerdict0
      else verdicts.getLastD "retry"
    let forceVerdict := verdicts.headD "approved"
    -- try:
    let inputText := getStrD state "input"
    let answer := getStrD state answerField
    let template := cfgStr config "prompt_template" reviewPromptDefault
    let promptRes : Except PyExc Unit :=
      match pyFormat
          (fun k =>
            if k = "question" then some inputText
            else if k = "answer" then some answer
            else none)
          template.data with
      | .ok _ => .ok ()
      | .error (.keyError _) => .ok ()
      | .error (.indexError _) => .ok ()
      | .error e => .error e
    match promptRes with
    | .error e => .ok (errorDelta e)
    | .ok () =>
      match modelOutcome with
      | .error e => .ok (errorDelta e)
      | .ok ((verdict, feedback), fallback) =>
        let forceNow :=
          verdict != forceVerdict && decide (reviewCount ≥ maxRetries)
        let matchedVerdict := if forceNow then forceVerdict else verdict
        let isComplete := forceNow || verdict == forceVerdict
        let result :=
          dictSet (dictSet (dictSet (dictSet (dictSet (dictSet []
            outputField (.str matchedVerdict))
            "review_feedback" (.str feedback))
            countField (.int reviewCount))
            "messages" (.list [.str ("Review verdict: " ++ matchedVerdict)]))
            "last_output"
              (.str ("VERDICT: " ++ matchedVerdict ++ "\nFEEDBACK: " ++
                feedback)))
            "current_step" (.str "review_complete")
        let result :=
          if isComplete then
            dictSet (dictSet result "final_answer" (.str answer))
              "is_complete" (.bool true)
          else result
        .ok (dictUpdate result fallback)

/-! ## Helper lemmas -/

theorem dictGet_dictSet_self (d : PyDict) (k : String) (v : Value) :
    dictGet (dictSet d k v) k = some v := by
  induction d with
  | nil => simp [dictSet, dictGet]
  | cons kv rest ih =>
    by_cases h : kv.1 = k
    · simp [dictSet, h, dictGet]
    · simp [dictSet, h, dictGet, ih]

theorem dictGet_dictSet_ne (d : PyDict) {k k2 : String} (h : k ≠ k2)
    (v : Value) : dictGet (dictSet d k v) k2 = dictGet d k2 := by
  induction d with
  | nil => simp [dictSet, dictGet, h]
  | cons kv rest ih =>
    obtain ⟨k0, v0⟩ := kv
    simp only [dictSet]
    by_cases hk : k0 = k
    · rw [if_pos hk]
      subst hk
      simp only [dictGet]
      rw [if_neg h, if_neg h]
    · rw [if_neg hk]
      simp only [dictGet]
      by_cases hk2 : k0 = k2
      · rw [if_pos hk2, if_pos hk2]
      · rw [if_neg hk2, if_neg hk2]
        exact ih

theorem lookup_empty_key_none {α : Type} (reg : List (String × α))
    (hkeys : ∀ p ∈ reg, p.1 ≠ "") : List.lookup "" reg = none := by
  induction reg with
  | nil => rfl
  | cons p rest ih =>
    have h1 : p.1 ≠ "" := hkeys p (by simp)
    have h2 : ∀ q ∈ rest, q.1 ≠ "" := fun q hq => hkeys q (by simp [hq])
    obtain ⟨k, v⟩ := p
    rw [List.lookup_cons]
    have hb : ("" == k) = false := beq_eq_false_iff_ne.mpr (Ne.symm h1)
    rw [hb]
    exact ih h2

/-! ## Claim theorems -/

/-- C10: `NodeRegistry.get` resolves an alias by exactly one step — a
direct registration wins; otherwise the alias table is consulted once and
its canonical target looked up directly; an alias chaining to another
alias resolves to `None`.  `hkeys` reflects that `register` rejects an
empty `node_type`, so the registry dict never has an empty key. -/
theorem nodeRegistry_get_one_step {α : Type} (reg : List (String × α))
    (aliases : List (String × String)) (name : String)
    (hkeys : ∀ p ∈ reg, p.1 ≠ "") :
    registryGet reg aliases name =
      (match List.lookup name reg with
       | some node => some node
       | none =>
         (List.lookup name aliases).bind (fun c => List.lookup c reg))
    ∧ (∀ b c : String, List.lookup name reg = none →
        List.lookup name aliases = some b → List.lookup b aliases = some c →
        List.lookup b reg = none → registryGet reg aliases name = none) := by
  constructor
  · unfold registryGet
    cases hdir : List.lookup name reg with
    | some node => rfl
    | none =>
      cases hal : List.lookup name aliases with
      | none => rfl
      | some canonical =>
        by_cases hc : canonical = ""
        · subst hc
          simp [lookup_empty_key_none reg hkeys]
        · simp [hc]
  · intro b c hdir hal _hbc hbreg
    unfold registryGet
    rw [hdir, hal]
    by_cases hb : b = ""
    · simp [hb]
    · simp [hb, hbreg]

/-- C10 witness: a registry with one real node, a live alias and a
dangling alias-to-alias chain, evaluated at concrete names. -/
theorem nodeRegistry_get_one_step_witness :
    registryGet [("classify", (0 : Nat))]
      [("classify_difficulty", "classify"), ("old_name", "classify_difficulty")]
      "old_name" = none := by
  have h := nodeRegistry_get_one_step [("classify", (0 : Nat))]
    [("classify_difficulty", "classify"), ("old_name", "classify_difficulty")]
    "old_name" (by intro p hp; simp at hp; simp [hp])
  exact h.2 "classify_difficulty" "classify" (by rfl) (by rfl) (by rfl) (by rfl)

/-- C8: the `conditional_router` routing function reads the configured
state field, unwraps enum members, strips and lowercases strings, looks
the stringified value up in the route map and falls back to the default
port on a missing key, a `None` value or an unmapped value; with an empty
route map every state routes to the default port. -/
theorem conditionalRouter_route_spec (field default : String)
    (routeMap : List (String × String)) :
    (∀ state : PyDict, condRouterRoute field default [] state = default)
    ∧ (∀ state : PyDict, dictGet state field = none →
        condRouterRoute field default routeMap state = default)
    ∧ (∀ state : PyDict, dictGet state field = some .null →
        condRouterRoute field default routeMap state = default)
    ∧ (∀ (state : PyDict) (s : String), dictGet state field = some (.str s) →
        condRouterRoute field default routeMap state =
          (match strMapGet routeMap (pyStripLower s) with
           | some port => port
           | none => default))
    ∧ (∀ (state : PyDict) (s : String),
        dictGet state field = some (.enum (.str s)) →
        condRouterRoute field default routeMap state =
          (match strMapGet routeMap (pyStripLower s) with
           | some port => port
           | none => default))
    ∧ (∀ (state : PyDict) (n : Int), dictGet state field = some (.int n) →
        condRouterRoute field default routeMap state =
          (match strMapGet routeMap (toString n) with
           | some port => port
           | none => default)) := by
  refine ⟨?_, ?_, ?_, ?_, ?_, ?_⟩
  · intro state
    unfold condRouterRoute
    cases h : dictGet state field with
    | none => simp
    | some v =>
      cases v with
      | enum payload => cases payload <;> simp [strMapGet]
      | _ => simp [strMapGet]
  · intro state h
    unfold condRouterRoute
    rw [h]
  · intro state h
    unfold condRouterRoute
    rw [h]
  · intro state s h
    unfold condRouterRoute
    rw [h]
    simp [pyStr]
  · intro state s h
    unfold condRouterRoute
    rw [h]
    simp [pyStr]
  · intro state n h
    unfold condRouterRoute
    rw [h]
    simp [pyStr]

/-- C8 witness: concrete routings — an empty map and an unmapped value
fall back to the default port, a padded mixed-case value is normalised
and mapped. -/
theorem conditionalRouter_route_spec_witness :
    condRouterRoute "difficulty" "default" [] [("difficulty", .str "HARD")] =
      "default"
    ∧ condRouterRoute "difficulty" "default" [("hard", "hard_port")]
        [("difficulty", .str " Hard ")] = "hard_port"
    ∧ condRouterRoute "difficulty" "default" [("hard", "hard_port")]
        [] = "default" := by
  have h1 := conditionalRouter_route_spec "difficulty" "default" []
  have h2 := conditionalRouter_route_spec "difficulty" "default"
    [("hard", "hard_port")]
  refine ⟨h1.1 [("difficulty", .str "HARD")], ?_, h2.2.1 [] (by rfl)⟩
  have := h2.2.2.2.1 [("difficulty", .str " Hard ")] " Hard " (by rfl)
  rw [this]
  rfl

theorem resilientInvokeFrom_sleeps_le {α : Type} (mr : Nat)
    (script : Nat → Except FailureReason α) :
    ∀ (n a : Nat), mr - a ≤ n →
      (resilientInvokeFrom mr script a).sleeps.length ≤ mr - a := by
  intro n
  induction n with
  | zero =>
    intro a ha
    rw [resilientInvokeFrom]
    cases script a with
    | ok r => simp
    | error reason =>
      have hnot : ¬(isRecoverable reason = true ∧ a < mr) := by
        rintro ⟨_, hlt⟩
        omega
      dsimp only
      rw [dif_neg hnot]
      simp
  | succ n ih =>
    intro a ha
    rw [resilientInvokeFrom]
    cases script a with
    | ok r => simp
    | error reason =>
      by_cases hrec : isRecoverable reason = true ∧ a < mr
      · dsimp only
        rw [dif_pos hrec]
        have := ih (a + 1) (by omega)
        simp only [List.length_cons]
        omega
      · dsimp only
        rw [dif_neg hrec]
        simp

/-- C3: `resilient_invoke` with the default `max_retries = 2` — a
non-recoverable classified failure is rethrown immediately with no
backoff sleep; at most 2 retries happen (3 total attempts); the backoff
before retrying a failure at attempt index `a` is the per-reason delay
(5 s rate-limited, 3 s overloaded, 2 s otherwise) scaled by the attempt
number `a + 1`; and when all three attempts fail recoverably the final
in-flight error is rethrown unchanged after sleeping
`delay(r0) * 1` and `delay(r1) * 2`. -/
theorem resilientInvoke_retry_policy {α : Type}
    (script : Nat → Except FailureReason α) :
    (∀ (a : Nat) (r : FailureReason), isRecoverable r = false →
      script a = .error r →
      resilientInvokeFrom 2 script a = ⟨[], .error r⟩)
    ∧ (resilientInvoke 2 script).sleeps.length ≤ 2
    ∧ backoffDelay .rateLimited = 5 ∧ backoffDelay .overloaded = 3
    ∧ (∀ r : FailureReason, isRecoverable r = true → r ≠ .rateLimited →
        r ≠ .overloaded → backoffDelay r = 2)
    ∧ (∀ (a : Nat) (r : FailureReason), isRecoverable r = true → a < 2 →
        script a = .error r →
        (resilientInvokeFrom 2 script a).sleeps.head? =
          some (backoffDelay r * (a + 1)))
    ∧ (∀ r0 r1 r2 : FailureReason, isRecoverable r0 = true →
        isRecoverable r1 = true → script 0 = .error r0 →
        script 1 = .error r1 → script 2 = .error r2 →
        resilientInvoke 2 script =
          ⟨[backoffDelay r0 * 1, backoffDelay r1 * 2], .error r2⟩) := by
  refine ⟨?_, ?_, rfl, rfl, ?_, ?_, ?_⟩
  · intro a r hrec hs
    rw [resilientInvokeFrom, hs]
    have hnot : ¬(isRecoverable r = true ∧ a < 2) := by
      rintro ⟨hr, _⟩
      rw [hrec] at hr
      exact Bool.false_ne_true hr
    dsimp only
    rw [dif_neg hnot]
  · exact resilientInvokeFrom_sleeps_le 2 script 2 0 (by omega)
  · intro r hrec h5 h3
    cases r <;> simp_all [isRecoverable, backoffDelay]
  · intro a r hrec ha hs
    rw [resilientInvokeFrom, hs]
    have hcond : isRecoverable r = true ∧ a < 2 := ⟨hrec, ha⟩
    dsimp only
    rw [dif_pos hcond]
    rfl
  · intro r0 r1 r2 hr0 hr1 h0 h1 h2
    unfold resilientInvoke
    rw [resilientInvokeFrom, h0]
    have hc0 : isRecoverable r0 = true ∧ 0 < 2 := ⟨hr0, by omega⟩
    dsimp only
    rw [dif_pos hc0]
    rw [resilientInvokeFrom, h1]
    have hc1 : isRecoverable r1 = true ∧ 1 < 2 := ⟨hr1, by omega⟩
    dsimp only
    rw [dif_pos hc1]
    rw [resilientInvokeFrom, h2]
    have hnot : ¬(isRecoverable r2 = true ∧ 2 < 2) := by
      rintro ⟨_, hlt⟩
      omega
    dsimp only
    rw [dif_neg hnot]

/-- C3 witness: a model that is overloaded twice and then times out —
the trace sleeps 3 s and 6 s and rethrows the timeout. -/
theorem resilientInvoke_retry_policy_witness :
    resilientInvoke 2
      (fun a => if a < 2 then (.error .overloaded : Except FailureReason Nat)
        else .error .timeoutReason) =
      ⟨[3, 6], .error .timeoutReason⟩ := by
  have h := resilientInvoke_retry_policy
    (fun a => if a < 2 then (.error .overloaded : Except FailureReason Nat)
      else .error .timeoutReason)
  have := h.2.2.2.2.2.2 .overloaded .overloaded .timeoutReason rfl rfl
    (by norm_num) (by norm_num) (by norm_num)
  simpa using this

/-- C2 counterexample: with default config (detection enabled) and
`last_output = "[TASK_COMPLETE]"`, the parsed signal is `complete` and the
delta records it — but the delta does NOT carry `is_complete` at all
(`PostModelNode.execute` only logs terminal signals; the claimed
`is_complete=true` marking does not happen). -/
theorem postModel_no_is_complete_counterexample :
    (detectCompletionSignal "[TASK_COMPLETE]").1 = CSignal.sComplete
    ∧ dictGet (postModelExecute [("last_output", .str "[TASK_COMPLETE]")] [])
        "completion_signal" = some (.str "complete")
    ∧ dictGet (postModelExecute [("last_output", .str "[TASK_COMPLETE]")] [])
        "is_complete" = none := by
  exact ⟨rfl, rfl, rfl⟩

/-- C2 (amended): with completion detection enabled and a non-empty value
in the configured source field, the `post_model` delta sets
`completion_signal` and `completion_detail` to the parsed signal — and it
does not set `is_complete`; halting on a complete/blocked/error signal is
left to the iteration gate's completion check. -/
theorem postModel_sets_signal_only (state config : PyDict) (src : String)
    (hdetect : cfgTruthy config "detect_completion" true = true)
    (hsrc : stateStrOr state (cfgStr config "source_field" "last_output") = src)
    (hne : src ≠ "")
    (hinc : cfgStr config "increment_field" "iteration" ≠ "is_complete") :
    dictGet (postModelExecute state config) "completion_signal" =
      some (.str (detectCompletionSignal src).1.value)
    ∧ dictGet (postModelExecute state config) "completion_detail" =
      some (optStrValue (detectCompletionSignal src).2)
    ∧ dictGet (postModelExecute state config) "is_complete" = none := by
  have hbne : (src != "") = true := by
    simp [bne_iff_ne, hne]
  have hbeq : (src == "") = false := by
    simp [hne]
  unfold postModelExecute
  dsimp only
  rw [hdetect, hsrc, hbeq, hbne]
  simp only [Bool.true_and, Bool.and_self, if_false, if_true, Bool.false_eq_true,
    ite_false, ite_true]
  refine ⟨?_, ?_, ?_⟩
  · rw [dictGet_dictSet_ne _ (by decide), dictGet_dictSet_self]
  · rw [dictGet_dictSet_self]
  · rw [dictGet_dictSet_ne _ (by decide), dictGet_dictSet_ne _ (by decide),
      dictGet_dictSet_ne _ (by decide), dictGet_dictSet_ne _ hinc]
    rfl

/-- C2 witness: the amended theorem applied to the scenario state
(`last_output = "done. [TASK_COMPLETE]"`, default config). -/
theorem postModel_sets_signal_only_witness :
    dictGet (postModelExecute [("last_output", .str "done. [TASK_COMPLETE]")]
      []) "completion_signal" = some (.str "complete")
    ∧ dictGet (postModelExecute [("last_output", .str "done. [TASK_COMPLETE]")]
      []) "is_complete" = none := by
  have h := postModel_sets_signal_only
    [("last_output", .str "done. [TASK_COMPLETE]")] []
    "done. [TASK_COMPLETE]" rfl rfl (by decide) (by decide)
  exact ⟨h.1, h.2.2⟩

/-- C5 counterexample: with `detect_completion` disabled in the config,
the delta of `post_model` does not write `completion_signal` at all —
the claimed unconditional write (regardless of configuration) fails. -/
theorem postModel_signal_reset_counterexample :
    dictGet (postModelExecute [("last_output", .str "[TASK_COMPLETE]")]
      [("detect_completion", .bool false)]) "completion_signal" = none := by
  rfl

/-- C5 (amended): whenever `detect_completion` is enabled (the default),
every execution of `post_model` writes `completion_signal` — the `none`
value when the source field is empty, the detected value otherwise — so a
stale signal cannot survive a detection-enabled iteration; with detection
disabled the field is left untouched. -/
theorem postModel_signal_reset_when_detecting (state config : PyDict)
    (hdetect : cfgTruthy config "detect_completion" true = true) :
    (dictGet (postModelExecute state config) "completion_signal").isSome =
      true
    ∧ (stateStrOr state (cfgStr config "source_field" "last_output") = "" →
        dictGet (postModelExecute state config) "completion_signal" =
          some (.str "none"))
    ∧ (∀ src : String,
        stateStrOr state (cfgStr config "source_field" "last_output") = src →
        src ≠ "" →
        dictGet (postModelExecute state config) "completion_signal" =
          some (.str (detectCompletionSignal src).1.value)) := by
  unfold postModelExecute
  dsimp only
  rw [hdetect]
  have hposEmpty : (("" : String) == "") = true := rfl
  refine ⟨?_, ?_, ?_⟩
  · by_cases hsrc :
        stateStrOr state (cfgStr config "source_field" "last_output") = ""
    · rw [hsrc,
        if_pos (show (true && (("" : String) == "")) = true from rfl)]
      rw [dictGet_dictSet_ne _ (by decide), dictGet_dictSet_self]
      rfl
    · have hbeq : (stateStrOr state (cfgStr config "source_field"
          "last_output") == "") = false := by
        simp [hsrc]
      have hbne : (stateStrOr state (cfgStr config "source_field"
          "last_output") != "") = true := by
        simp [bne_iff_ne, hsrc]
      rw [hbeq, hbne]
      rw [if_neg (by simp), if_pos (show ((true && true) = true) from rfl)]
      rw [dictGet_dictSet_ne _ (by decide), dictGet_dictSet_self]
      rfl
  · intro hsrc
    rw [hsrc,
      if_pos (show (true && (("" : String) == "")) = true from rfl)]
    rw [dictGet_dictSet_ne _ (by decide), dictGet_dictSet_self]
    rfl
  · intro src hsrc hne
    rw [hsrc]
    have hbeq : (src == "") = false := by simp [hne]
    have hbne : (src != "") = true := by simp [bne_iff_ne, hne]
    rw [hbeq, hbne]
    rw [if_neg (by simp), if_pos (show ((true && true) = true) from rfl)]
    rw [dictGet_dictSet_ne _ (by decide), dictGet_dictSet_self]

/-- C5 witness: the amended theorem applied to an empty and a marked
source value under the default config. -/
theorem postModel_signal_reset_when_detecting_witness :
    dictGet (postModelExecute [] []) "completion_signal" =
      some (.str "none")
    ∧ dictGet (postModelExecute [("last_output", .str "[BLOCKED: io]")] [])
        "completion_signal" = some (.str "blocked") := by
  have h1 := postModel_signal_reset_when_detecting [] [] rfl
  have h2 := postModel_signal_reset_when_detecting
    [("last_output", .str "[BLOCKED: io]")] [] rfl
  refine ⟨h1.2.1 rfl, ?_⟩
  have := h2.2.2 "[BLOCKED: io]" rfl (by decide)
  rw [this]
  rfl

/-- C6 counterexample: on a plain (non-autonomous) run whose final state
has `final_answer = "F"` and `last_output = "L"` and no error, `invoke`
returns `"L"` — not the `final_answer` the claim promises; on an
autonomous run with empty `final_answer`, `answer = "A"` and
`last_output = "L"`, it returns the `answer` field `"A"`, not
`last_output`. -/
theorem invokeResult_counterexample :
    invokeResult false [("final_answer", .str "F"), ("last_output", .str "L")]
      = "L"
    ∧ claimedInvokeResult
        [("final_answer", .str "F"), ("last_output", .str "L")] = "F"
    ∧ invokeResult true [("answer", .str "A"), ("last_output", .str "L")]
      = "A"
    ∧ claimedInvokeResult [("answer", .str "A"), ("last_output", .str "L")]
      = "L"
    ∧ invokeResult false
        [("final_answer", .str "F"), ("last_output", .str "L")] ≠
      claimedInvokeResult
        [("final_answer", .str "F"), ("last_output", .str "L")]
    ∧ invokeResult true [("answer", .str "A"), ("last_output", .str "L")] ≠
      claimedInvokeResult [("answer", .str "A"), ("last_output", .str "L")]
    := by
  refine ⟨rfl, rfl, rfl, rfl, by decide, by decide⟩

/-- C6 (amended): for an error-free final state, `invoke` returns
`final_answer or answer` in autonomous mode (the `answer` field, not
`last_output`, is the fallback) and `last_output` unconditionally in
non-autonomous mode (where `final_answer` is never consulted). -/
theorem invokeResult_by_mode (fa ans lo : String) :
    (invokeResult true [("final_answer", .str fa), ("answer", .str ans),
        ("last_output", .str lo)] = if fa ≠ "" then fa else ans)
    ∧ (invokeResult false [("final_answer", .str fa), ("answer", .str ans),
        ("last_output", .str lo)] = lo)
    ∧ (∀ result : PyDict, truthyOpt (dictGet result "error") = false →
        invokeResult false result = getStrD result "last_output") := by
  refine ⟨?_, ?_, ?_⟩
  · by_cases h : fa = ""
    · subst h
      simp [invokeResult, getStrD, dictGet, truthyOpt]
    · simp [invokeResult, getStrD, dictGet, truthyOpt, h]
  · simp [invokeResult, getStrD, dictGet, truthyOpt]
  · intro result herr
    unfold invokeResult
    rw [herr]
    simp

/-- C6 witness: the amended theorem at concrete field values and a
concrete error-free state. -/
theorem invokeResult_by_mode_witness :
    invokeResult true [("final_answer", .str ""), ("answer", .str "A"),
      ("last_output", .str "L")] = "A"
    ∧ invokeResult false [("x", .str "y")] = "" := by
  have h := invokeResult_by_mode "" "A" "L"
  refine ⟨by simpa using h.1, ?_⟩
  have h2 := h.2.2 [("x", .str "y")] rfl
  rw [h2]
  rfl

/-- C9 counterexample: `direct_answer` runs `_safe_format` BEFORE its
`try` block, and `_safe_format` only swallows `KeyError`/`IndexError` —
with the malformed template `"\x7b"` the `ValueError` escapes the node
instead of being turned into an error delta. -/
theorem directAnswer_preTry_exception_counterexample :
    directAnswerExecute [] [("prompt_template", .str "\x7b")]
      (.ok ("hi", [])) =
      .error (.valueError "Single \x7b encountered in format string") := by
  simp [directAnswerExecute, cfgStr, cfgTruthy, dictGet, outputFieldsOf,
    safeFormat, pyFormat, splitAtBrace, stateFormatMap]

/-- C9 (amended): exceptions raised inside the `try` block of the four
model nodes never propagate — the node returns a delta with `error` set
to the exception text and `is_complete=true`.  `classify` and `answer`
guard their whole bodies and so never raise; `direct_answer` converts a
model failure once its pre-`try` prompt formatting has succeeded, and
`review` once its pre-`try` `int(max_retries)` parse has succeeded —
exceptions in that pre-`try` code still propagate. -/
theorem modelNode_error_containment (state config : PyDict) (e : PyExc) :
    (∀ outcome, (classifyExecute state config outcome).isOk = true)
    ∧ (∃ e2, classifyExecute state config (.error e) = .ok (errorDelta e2))
    ∧ (∀ outcome, (answerExecute state config outcome).isOk = true)
    ∧ (∃ e2, answerExecute state config (.error e) = .ok (errorDelta e2))
    ∧ ((safeFormat (cfgStr config "prompt_template" "\x7binput\x7d")
          state).isOk = true →
        directAnswerExecute state config (.error e) = .ok (errorDelta e))
    ∧ ((pyIntExc (dictGetD config "max_retries" (.int 3))).isOk = true →
        (∃ e2, reviewExecute state config (.error e) =
          .ok (errorDelta e2))) := by
  refine ⟨?_, ?_, ?_, ?_, ?_, ?_⟩
  · intro outcome
    unfold classifyExecute
    dsimp only
    cases hf : safeFormat (cfgStr config "prompt_template"
        classifyPromptDefault)
        (dictSet state "input" (.str (getStrD state "input"))) with
    | error e2 => rfl
    | ok p =>
      cases outcome with
      | error e2 => rfl
      | ok r => rfl
  · unfold classifyExecute
    dsimp only
    cases hf : safeFormat (cfgStr config "prompt_template"
        classifyPromptDefault)
        (dictSet state "input" (.str (getStrD state "input"))) with
    | error e2 => exact ⟨e2, rfl⟩
    | ok p => exact ⟨e, rfl⟩
  · intro outcome
    unfold answerExecute
    dsimp only
    split
    · rfl
    · cases outcome with
      | error e2 => rfl
      | ok r => rfl
  · unfold answerExecute
    dsimp only
    split
    · next e2 _ => exact ⟨e2, rfl⟩
    · exact ⟨e, rfl⟩
  · intro hfmt
    unfold directAnswerExecute
    dsimp only
    cases hf : safeFormat (cfgStr config "prompt_template" "\x7binput\x7d")
        state with
    | error e2 => rw [hf] at hfmt; exact Bool.noConfusion hfmt
    | ok p => rfl
  · intro hint
    unfold reviewExecute
    dsimp only
    cases hi : pyIntExc (dictGetD config "max_retries" (.int 3)) with
    | error e2 => rw [hi] at hint; exact Bool.noConfusion hint
    | ok m =>
      dsimp only
      split
      · next e2 _ => exact ⟨e2, rfl⟩
      · exact ⟨e, rfl⟩

/-- C9 witness: a rate-limit failure that survives retry exhaustion is
converted to an error delta by each node (concrete states and configs),
applying the amended theorem. -/
theorem modelNode_error_containment_witness :
    classifyExecute [("input", .str "2+2")] []
      (.error (.modelError "rate limited")) =
      .ok [("error", .str "rate limited"), ("is_complete", .bool true)]
    ∧ directAnswerExecute [("input", .str "2+2")] []
        (.error (.modelError "rate limited")) =
      .ok [("error", .str "rate limited"), ("is_complete", .bool true)] := by
  have h := modelNode_error_containment [("input", .str "2+2")] []
    (.modelError "rate limited")
  have hsf : safeFormat (cfgStr [] "prompt_template" "\x7binput\x7d")
      [("input", .str "2+2")] = .ok "2+2" := by
    simp [safeFormat, cfgStr, dictGet, pyFormat, splitAtBrace,
      stateFormatMap, Except.map]
  have hd := h.2.2.2.2.1 (by rw [hsf]; rfl)
  refine ⟨?_, hd⟩
  have hcf : safeFormat (cfgStr [] "prompt_template" classifyPromptDefault)
      (dictSet [("input", .str "2+2")] "input"
        (.str (getStrD [("input", .str "2+2")] "input"))) =
      .ok "Classify: 2+2" := by
    simp [safeFormat, cfgStr, dictGet, classifyPromptDefault, pyFormat,
      splitAtBrace, stateFormatMap, dictSet, getStrD, Except.map]
  unfold classifyExecute
  dsimp only
  rw [hcf]
  rfl

theorem dedup_length_le_one_of_all_eq {l : List String} {a : String}
    (h : ∀ x ∈ l, x = a) : l.dedup.length ≤ 1 := by
  induction l with
  | nil => simp
  | cons b t ih =>
    have hb : b = a := h b (by simp)
    have ht : ∀ x ∈ t, x = a := fun x hx => h x (by simp [hx])
    cases t with
    | nil => simp
    | cons c t2 =>
      have hc : c = a := ht c (by simp)
      have hmem : b ∈ c :: t2 := by
        rw [hb, ← hc]
        exact List.mem_cons_self c t2
      rw [List.dedup_cons_of_mem hmem]
      exact ih ht

/-- C7: when every outgoing edge of a source reaches the same target
(whatever ports they use), `compile` wires a plain direct edge to that
target; the wiring does not depend on the node type's routing function
(it is neither registered nor called), and conditional wiring arises only
when the edges reach more than one distinct target. -/
theorem compile_single_target_direct
    (f g : Option (PyDict → String))
    (instanceTypes : List (String × String))
    (edges : List WorkflowEdge) (e0 : WorkflowEdge)
    (hhead : edges.head? = some e0)
    (hsame : ∀ e ∈ edges, e.target = e0.target) :
    wireSource f instanceTypes edges =
      .direct (resolveTarget instanceTypes e0.target)
    ∧ wireSource f instanceTypes edges = wireSource g instanceTypes edges
    ∧ (∀ routing edgeMap,
        wireSource f instanceTypes edges ≠ .conditional routing edgeMap)
    ∧ (∀ (edges2 : List WorkflowEdge) routing edgeMap,
        wireSource f instanceTypes edges2 = .conditional routing edgeMap →
        1 < ((edges2.map (fun e => e.target)).dedup).length) := by
  have hmt : hasMultipleTargets edges = false := by
    unfold hasMultipleTargets
    have hall : ∀ x ∈ edges.map (fun e => e.target), x = e0.target := by
      intro x hx
      obtain ⟨e, he, rfl⟩ := List.mem_map.mp hx
      exact hsame e he
    have := dedup_length_le_one_of_all_eq hall
    simp only [decide_eq_false_iff_not]
    omega
  have hdir : wireSource f instanceTypes edges =
      .direct (resolveTarget instanceTypes e0.target) := by
    unfold wireSource
    rw [hmt]
    simp [hhead]
  refine ⟨hdir, ?_, ?_, ?_⟩
  · have hdir2 : wireSource g instanceTypes edges =
        .direct (resolveTarget instanceTypes e0.target) := by
      unfold wireSource
      rw [hmt]
      simp [hhead]
    rw [hdir, hdir2]
  · intro routing edgeMap
    rw [hdir]
    intro hcontra
    exact Wiring.noConfusion hcontra
  · intro edges2 routing edgeMap hw
    unfold wireSource at hw
    by_cases hm : hasMultipleTargets edges2 = true
    · unfold hasMultipleTargets at hm
      exact of_decide_eq_true hm
    · rw [Bool.not_eq_true] at hm
      rw [hm] at hw
      simp at hw

/-- C7 witness: a review node whose `approved` and `retry` ports both
lead to the same node compiles to a direct edge under any routing
function, and never to conditional wiring. -/
theorem compile_single_target_direct_witness :
    wireSource (some (fun _ => "approved")) [("end_1", "end")]
      [⟨"review_1", "answer_1", some "approved"⟩,
       ⟨"review_1", "answer_1", some "retry"⟩] =
      .direct "answer_1" := by
  have h := compile_single_target_direct
    (some (fun _ => "approved")) none [("end_1", "end")]
    [⟨"review_1", "answer_1", some "approved"⟩,
     ⟨"review_1", "answer_1", some "retry"⟩]
    ⟨"review_1", "answer_1", some "approved"⟩
    rfl (by intro e he; simp at he; rcases he with h1 | h1 <;> simp [h1])
  rw [h.1]
  rfl

/-- A gate-shaped run state: the fields `IterationGateNode.execute`
reads, with a custom stop field `csf` carrying `customVal`. -/
def gateTestState (iter maxIter : Int) (bs sig csf : String)
    (customVal : Value) : PyDict :=
  [("iteration", .int iter), ("max_iterations", .int maxIter),
   ("context_budget", .dict [("status", .str bs)]),
   ("completion_signal", .str sig), (csf, customVal)]

/-- A gate config with the three check toggles and a custom stop field. -/
def gateTestConfig (cI cB cC : Bool) (csf : String) : PyDict :=
  [("check_iteration", .bool cI), ("check_budget", .bool cB),
   ("check_completion", .bool cC), ("custom_stop_field", .str csf)]

/-- C4: the iteration gate evaluates its enabled checks in source order —
iteration limit, budget status in block/overflow, completion signal in
complete/blocked/error, custom stop field truthy.  The first triggering
check sets `is_complete=true` in the delta and records its reason in
`gate_stop_reason`; with no trigger the delta carries no `is_complete`
and clears `gate_stop_reason`.  The routing function returns `"stop"`
exactly when the state has a truthy `is_complete` or `error`, else
`"continue"`. -/
theorem iterationGate_ordered_checks
    (iter maxIter : Int) (bs sig : String) (customVal : Value)
    (cI cB cC : Bool) (csf : String)
    (hcsf1 : csf ≠ "iteration") (hcsf2 : csf ≠ "max_iterations")
    (hcsf3 : csf ≠ "context_budget") (hcsf4 : csf ≠ "completion_signal")
    (hcsf5 : csf ≠ "") (hcsf6 : csf ≠ "metadata") :
    (cI = true → iter ≥ maxIter →
      dictGet (iterationGateExecute
          (gateTestState iter maxIter bs sig csf customVal)
          (gateTestConfig cI cB cC csf)) "is_complete" = some (.bool true)
      ∧ dictGet (iterationGateExecute
          (gateTestState iter maxIter bs sig csf customVal)
          (gateTestConfig cI cB cC csf)) "gate_stop_reason" =
        some (.str ("Iteration limit (" ++ toString iter ++ "/" ++
          toString maxIter ++ ")")))
    ∧ (¬(cI = true ∧ iter ≥ maxIter) → cB = true →
        (bs = "block" ∨ bs = "overflow") →
        dictGet (iterationGateExecute
            (gateTestState iter maxIter bs sig csf customVal)
            (gateTestConfig cI cB cC csf)) "is_complete" = some (.bool true)
        ∧ dictGet (iterationGateExecute
            (gateTestState iter maxIter bs sig csf customVal)
            (gateTestConfig cI cB cC csf)) "gate_stop_reason" =
          some (.str ("Context budget " ++ bs)))
    ∧ (¬(cI = true ∧ iter ≥ maxIter) →
        ¬(cB = true ∧ (bs = "block" ∨ bs = "overflow")) → cC = true →
        (sig = "complete" ∨ sig = "blocked" ∨ sig = "error") →
        dictGet (iterationGateExecute
            (gateTestState iter maxIter bs sig csf customVal)
            (gateTestConfig cI cB cC csf)) "is_complete" = some (.bool true)
        ∧ dictGet (iterationGateExecute
            (gateTestState iter maxIter bs sig csf customVal)
            (gateTestConfig cI cB cC csf)) "gate_stop_reason" =
          some (.str ("Completion signal: " ++ sig)))
    ∧ (¬(cI = true ∧ iter ≥ maxIter) →
        ¬(cB = true ∧ (bs = "block" ∨ bs = "overflow")) →
        ¬(cC = true ∧ (sig = "complete" ∨ sig = "blocked" ∨ sig = "error")) →
        truthy customVal = true →
        dictGet (iterationGateExecute
            (gateTestState iter maxIter bs sig csf customVal)
            (gateTestConfig cI cB cC csf)) "is_complete" = some (.bool true)
        ∧ dictGet (iterationGateExecute
            (gateTestState iter maxIter bs sig csf customVal)
            (gateTestConfig cI cB cC csf)) "gate_stop_reason" =
          some (.str ("Custom stop: " ++ csf ++ "=" ++ pyStr customVal)))
    ∧ (¬(cI = true ∧ iter ≥ maxIter) →
        ¬(cB = true ∧ (bs = "block" ∨ bs = "overflow")) →
        ¬(cC = true ∧ (sig = "complete" ∨ sig = "blocked" ∨ sig = "error")) →
        truthy customVal = false →
        dictGet (iterationGateExecute
            (gateTestState iter maxIter bs sig csf customVal)
            (gateTestConfig cI cB cC csf)) "is_complete" = none
        ∧ dictGet (iterationGateExecute
            (gateTestState iter maxIter bs sig csf customVal)
            (gateTestConfig cI cB cC csf)) "gate_stop_reason" = some .null)
    ∧ (∀ st2 : PyDict, iterationGateRoute st2 = "stop" ↔
        (truthyOpt (dictGet st2 "is_complete") = true ∨
         truthyOpt (dictGet st2 "error") = true)) := by
  refine ⟨?_, ?_, ?_, ?_, ?_, ?_⟩
  · intro hci hge
    subst hci
    have hexec : iterationGateExecute (gateTestState iter maxIter bs sig csf customVal)
        (gateTestConfig true cB cC csf) =
        dictSet (dictSet (dictSet [] "is_complete" (.bool true))
          "gate_stop_reason" (.str ("Iteration limit (" ++ toString iter ++ "/" ++ toString maxIter ++ ")")))
          "metadata" (.dict (dictSet (dictSet []
            "gate_stop_reason" (.str ("Iteration limit (" ++ toString iter ++ "/" ++ toString maxIter ++ ")")))
            "stopped_at_iteration" (.int iter))) := by
      unfold iterationGateExecute
      dsimp only
      rw [show cfgIntD (gateTestConfig true cB cC csf) "max_iterations_override" 0 = 0 from rfl]
      rw [show stateInt (gateTestState iter maxIter bs sig csf customVal) "iteration" 0 = iter from rfl]
      rw [show stateInt (gateTestState iter maxIter bs sig csf customVal) "max_iterations" 50 = maxIter from rfl]
      rw [if_neg (show ¬((0 : Int) > 0) from by norm_num)]
      rw [show cfgTruthy (gateTestConfig true cB cC csf) "check_iteration" true = true from rfl]
      rw [decide_eq_true hge]
      rw [if_pos (show ((true && true) = true) from rfl)]
      dsimp only
      rw [show dictGet (gateTestState iter maxIter bs sig csf customVal) "metadata" = dictGet [(csf, customVal)] "metadata" from rfl]
      rw [show dictGet [(csf, customVal)] "metadata" = none from by simp [dictGet, hcsf6]]
    constructor
    · rw [hexec, dictGet_dictSet_ne _ (by decide),
        dictGet_dictSet_ne _ (by decide), dictGet_dictSet_self]
    · rw [hexec, dictGet_dictSet_ne _ (by decide), dictGet_dictSet_self]
  · intro hn1 hcb hbs
    subst hcb
    have hs1 : (cI && decide (iter ≥ maxIter)) = false := by
      cases cI with
      | false => rfl
      | true =>
        have hng : ¬ iter ≥ maxIter := fun hge => hn1 ⟨rfl, hge⟩
        simp [hng]
    have hexec : iterationGateExecute (gateTestState iter maxIter bs sig csf customVal)
        (gateTestConfig cI true cC csf) =
        dictSet (dictSet (dictSet [] "is_complete" (.bool true))
          "gate_stop_reason" (.str ("Context budget " ++ bs)))
          "metadata" (.dict (dictSet (dictSet []
            "gate_stop_reason" (.str ("Context budget " ++ bs)))
            "stopped_at_iteration" (.int iter))) := by
      unfold iterationGateExecute
      dsimp only
      rw [show cfgIntD (gateTestConfig cI true cC csf) "max_iterations_override" 0 = 0 from rfl]
      rw [show stateInt (gateTestState iter maxIter bs sig csf customVal) "iteration" 0 = iter from rfl]
      rw [show stateInt (gateTestState iter maxIter bs sig csf customVal) "max_iterations" 50 = maxIter from rfl]
      rw [if_neg (show ¬((0 : Int) > 0) from by norm_num)]
      rw [show cfgTruthy (gateTestConfig cI true cC csf) "check_iteration" true = cI from rfl]
      rw [hs1]
      rw [if_neg (show ¬((false : Bool) = true) from by simp)]
      dsimp only
      rw [show cfgTruthy (gateTestConfig cI true cC csf) "check_budget" true = true from rfl]
      rw [if_pos (show ((true : Bool) = true) from rfl)]
      rw [show dictGet (gateTestState iter maxIter bs sig csf customVal) "context_budget" = some (.dict [("status", .str bs)]) from rfl]
      dsimp only
      rw [show dictGet [("status", Value.str bs)] "status" = some (.str bs) from rfl]
      dsimp only
      rw [show (bs == "block" || bs == "overflow") = true from by rcases hbs with h | h <;> simp [h]]
      rw [if_pos (show ((true : Bool) = true) from rfl)]
      dsimp only
      rw [show dictGet (gateTestState iter maxIter bs sig csf customVal) "metadata" = dictGet [(csf, customVal)] "metadata" from rfl]
      rw [show dictGet [(csf, customVal)] "metadata" = none from by simp [dictGet, hcsf6]]
    constructor
    · rw [hexec, dictGet_dictSet_ne _ (by decide),
        dictGet_dictSet_ne _ (by decide), dictGet_dictSet_self]
    · rw [hexec, dictGet_dictSet_ne _ (by decide), dictGet_dictSet_self]
  · intro hn1 hn2 hcc hsig
    subst hcc
    have hs1 : (cI && decide (iter ≥ maxIter)) = false := by
      cases cI with
      | false => rfl
      | true =>
        have hng : ¬ iter ≥ maxIter := fun hge => hn1 ⟨rfl, hge⟩
        simp [hng]
    have hexec : iterationGateExecute (gateTestState iter maxIter bs sig csf customVal)
        (gateTestConfig cI cB true csf) =
        dictSet (dictSet (dictSet [] "is_complete" (.bool true))
          "gate_stop_reason" (.str ("Completion signal: " ++ sig)))
          "metadata" (.dict (dictSet (dictSet []
            "gate_stop_reason" (.str ("Completion signal: " ++ sig)))
            "stopped_at_iteration" (.int iter))) := by
      cases cB with
      | true =>
        have hb1 : bs ≠ "block" := fun h => hn2 ⟨rfl, Or.inl h⟩
        have hb2 : bs ≠ "overflow" := fun h => hn2 ⟨rfl, Or.inr h⟩
        unfold iterationGateExecute
        dsimp only
        rw [show cfgIntD (gateTestConfig cI true true csf) "max_iterations_override" 0 = 0 from rfl]
        rw [show stateInt (gateTestState iter maxIter bs sig csf customVal) "iteration" 0 = iter from rfl]
        rw [show stateInt (gateTestState iter maxIter bs sig csf customVal) "max_iterations" 50 = maxIter from rfl]
        rw [if_neg (show ¬((0 : Int) > 0) from by norm_num)]
        rw [show cfgTruthy (gateTestConfig cI true true csf) "check_iteration" true = cI from rfl]
        rw [hs1]
        rw [if_neg (show ¬((false : Bool) = true) from by simp)]
        dsimp only
        rw [show cfgTruthy (gateTestConfig cI true true csf) "check_budget" true = true from rfl]
        rw [if_pos (show ((true : Bool) = true) from rfl)]
        rw [show dictGet (gateTestState iter maxIter bs sig csf customVal) "context_budget" = some (.dict [("status", .str bs)]) from rfl]
        dsimp only
        rw [show dictGet [("status", Value.str bs)] "status" = some (.str bs) from rfl]
        dsimp only
        rw [show (bs == "block" || bs == "overflow") = false from by simp [hb1, hb2]]
        rw [if_neg (show ¬((false : Bool) = true) from by simp)]
        dsimp only
        rw [show cfgTruthy (gateTestConfig cI true true csf) "check_completion" true = true from rfl]
        rw [if_pos (show ((true : Bool) = true) from rfl)]
        rw [show dictGet (gateTestState iter maxIter bs sig csf customVal) "completion_signal" = some (.str sig) from rfl]
        dsimp only
        rw [show (sig == CSignal.sComplete.value || sig == CSignal.sBlocked.value || sig == CSignal.sError.value) = true from by rcases hsig with h | h | h <;> simp [h, CSignal.value]]
        rw [if_pos (show ((true : Bool) = true) from rfl)]
        dsimp only
        rw [show dictGet (gateTestState iter maxIter bs sig csf customVal) "metadata" = dictGet [(csf, customVal)] "metadata" from rfl]
        rw [show dictGet [(csf, customVal)] "metadata" = none from by simp [dictGet, hcsf6]]

      | false =>
        unfold iterationGateExecute
        dsimp only
        rw [show cfgIntD (gateTestConfig cI false true csf) "max_iterations_override" 0 = 0 from rfl]
        rw [show stateInt (gateTestState iter maxIter bs sig csf customVal) "iteration" 0 = iter from rfl]
        rw [show stateInt (gateTestState iter maxIter bs sig csf customVal) "max_iterations" 50 = maxIter from rfl]
        rw [if_neg (show ¬((0 : Int) > 0) from by norm_num)]
        rw [show cfgTruthy (gateTestConfig cI false true csf) "check_iteration" true = cI from rfl]
        rw [hs1]
        rw [if_neg (show ¬((false : Bool) = true) from by simp)]
        dsimp only
        rw [show cfgTruthy (gateTestConfig cI false true csf) "check_budget" true = false from rfl]
        rw [if_neg (show ¬((false : Bool) = true) from by simp)]
        dsimp only
        rw [show cfgTruthy (gateTestConfig cI false true csf) "check_completion" true = true from rfl]
        rw [if_pos (show ((true : Bool) = true) from rfl)]
        rw [show dictGet (gateTestState iter maxIter bs sig csf customVal) "completion_signal" = some (.str sig) from rfl]
        dsimp only
        rw [show (sig == CSignal.sComplete.value || sig == CSignal.sBlocked.value || sig == CSignal.sError.value) = true from by rcases hsig with h | h | h <;> simp [h, CSignal.value]]
        rw [if_pos (show ((true : Bool) = true) from rfl)]
        dsimp only
        rw [show dictGet (gateTestState iter maxIter bs sig csf customVal) "metadata" = dictGet [(csf, customVal)] "metadata" from rfl]
        rw [show dictGet [(csf, customVal)] "metadata" = none from by simp [dictGet, hcsf6]]

    constructor
    · rw [hexec, dictGet_dictSet_ne _ (by decide),
        dictGet_dictSet_ne _ (by decide), dictGet_dictSet_self]
    · rw [hexec, dictGet_dictSet_ne _ (by decide), dictGet_dictSet_self]
  · intro hn1 hn2 hn3 htv
    have hs1 : (cI && decide (iter ≥ maxIter)) = false := by
      cases cI with
      | false => rfl
      | true =>
        have hng : ¬ iter ≥ maxIter := fun hge => hn1 ⟨rfl, hge⟩
        simp [hng]
    have hexec : iterationGateExecute (gateTestState iter maxIter bs sig csf customVal)
        (gateTestConfig cI cB cC csf) =
        dictSet (dictSet (dictSet [] "is_complete" (.bool true))
          "gate_stop_reason" (.str ("Custom stop: " ++ csf ++ "=" ++ pyStr customVal)))
          "metadata" (.dict (dictSet (dictSet []
            "gate_stop_reason" (.str ("Custom stop: " ++ csf ++ "=" ++ pyStr customVal)))
            "stopped_at_iteration" (.int iter))) := by
      cases cB with
      | true =>
        have hb1 : bs ≠ "block" := fun h => hn2 ⟨rfl, Or.inl h⟩
        have hb2 : bs ≠ "overflow" := fun h => hn2 ⟨rfl, Or.inr h⟩
        cases cC with
        | true =>
          have hg1 : sig ≠ "complete" := fun h => hn3 ⟨rfl, Or.inl h⟩
          have hg2 : sig ≠ "blocked" := fun h => hn3 ⟨rfl, Or.inr (Or.inl h)⟩
          have hg3 : sig ≠ "error" := fun h => hn3 ⟨rfl, Or.inr (Or.inr h)⟩
          unfold iterationGateExecute
          dsimp only
          rw [show cfgIntD (gateTestConfig cI true true csf) "max_iterations_override" 0 = 0 from rfl]
          rw [show stateInt (gateTestState iter maxIter bs sig csf customVal) "iteration" 0 = iter from rfl]
          rw [show stateInt (gateTestState iter maxIter bs sig csf customVal) "max_iterations" 50 = maxIter from rfl]
          rw [if_neg (show ¬((0 : Int) > 0) from by norm_num)]
          rw [show cfgTruthy (gateTestConfig cI true true csf) "check_iteration" true = cI from rfl]
          rw [hs1]
          rw [if_neg (show ¬((false : Bool) = true) from by simp)]
          dsimp only
          rw [show cfgTruthy (gateTestConfig cI true true csf) "check_budget" true = true from rfl]
          rw [if_pos (show ((true : Bool) = true) from rfl)]
          rw [show dictGet (gateTestState iter maxIter bs sig csf customVal) "context_budget" = some (.dict [("status", .str bs)]) from rfl]
          dsimp only
          rw [show dictGet [("status", Value.str bs)] "status" = some (.str bs) from rfl]
          dsimp only
          rw [show (bs == "block" || bs == "overflow") = false from by simp [hb1, hb2]]
          rw [if_neg (show ¬((false : Bool) = true) from by simp)]
          dsimp only
          rw [show cfgTruthy (gateTestConfig cI true true csf) "check_completion" true = true from rfl]
          rw [if_pos (show ((true : Bool) = true) from rfl)]
          rw [show dictGet (gateTestState iter maxIter bs sig csf customVal) "completion_signal" = some (.str sig) from rfl]
          dsimp only
          rw [show (sig == CSignal.sComplete.value || sig == CSignal.sBlocked.value || sig == CSignal.sError.value) = false from by simp [hg1, hg2, hg3, CSignal.value]]
          rw [if_neg (show ¬((false : Bool) = true) from by simp)]
          dsimp only
          rw [show cfgStr (gateTestConfig cI true true csf) "custom_stop_field" "" = csf from rfl]
          rw [show (csf != "") = true from by simp [hcsf5]]
          rw [if_pos (show ((true : Bool) = true) from rfl)]
          rw [show dictGet (gateTestState iter maxIter bs sig csf customVal) csf = some customVal from by simp [gateTestState, dictGet, Ne.symm hcsf1, Ne.symm hcsf2, Ne.symm hcsf3, Ne.symm hcsf4]]
          dsimp only
          rw [htv]
          rw [if_pos (show ((true : Bool) = true) from rfl)]
          dsimp only
          rw [show dictGet (gateTestState iter maxIter bs sig csf customVal) "metadata" = dictGet [(csf, customVal)] "metadata" from rfl]
          rw [show dictGet [(csf, customVal)] "metadata" = none from by simp [dictGet, hcsf6]]

        | false =>
          unfold iterationGateExecute
          dsimp only
          rw [show cfgIntD (gateTestConfig cI true false csf) "max_iterations_override" 0 = 0 from rfl]
          rw [show stateInt (gateTestState iter maxIter bs sig csf customVal) "iteration" 0 = iter from rfl]
          rw [show stateInt (gateTestState iter maxIter bs sig csf customVal) "max_iterations" 50 = maxIter from rfl]
          rw [if_neg (show ¬((0 : Int) > 0) from by norm_num)]
          rw [show cfgTruthy (gateTestConfig cI true false csf) "check_iteration" true = cI from rfl]
          rw [hs1]
          rw [if_neg (show ¬((false : Bool) = true) from by simp)]
          dsimp only
          rw [show cfgTruthy (gateTestConfig cI true false csf) "check_budget" true = true from rfl]
          rw [if_pos (show ((true : Bool) = true) from rfl)]
          rw [show dictGet (gateTestState iter maxIter bs sig csf customVal) "context_budget" = some (.dict [("status", .str bs)]) from rfl]
          dsimp only
          rw [show dictGet [("status", Value.str bs)] "status" = some (.str bs) from rfl]
          dsimp only
          rw [show (bs == "block" || bs == "overflow") = false from by simp [hb1, hb2]]
          rw [if_neg (show ¬((false : Bool) = true) from by simp)]
          dsimp only
          rw [show cfgTruthy (gateTestConfig cI true false csf) "check_completion" true = false from rfl]
          rw [if_neg (show ¬((false : Bool) = true) from by simp)]
          dsimp only
          rw [show cfgStr (gateTestConfig cI true false csf) "custom_stop_field" "" = csf from rfl]
          rw [show (csf != "") = true from by simp [hcsf5]]
          rw [if_pos (show ((true : Bool) = true) from rfl)]
          rw [show dictGet (gateTestState iter maxIter bs sig csf customVal) csf = some customVal from by simp [gateTestState, dictGet, Ne.symm hcsf1, Ne.symm hcsf2, Ne.symm hcsf3, Ne.symm hcsf4]]
          dsimp only
          rw [htv]
          rw [if_pos (show ((true : Bool) = true) from rfl)]
          dsimp only
          rw [show dictGet (gateTestState iter maxIter bs sig csf customVal) "metadata" = dictGet [(csf, customVal)] "metadata" from rfl]
          rw [show dictGet [(csf, customVal)] "metadata" = none from by simp [dictGet, hcsf6]]

      | false =>
        cases cC with
        | true =>
          have hg1 : sig ≠ "complete" := fun h => hn3 ⟨rfl, Or.inl h⟩
          have hg2 : sig ≠ "blocked" := fun h => hn3 ⟨rfl, Or.inr (Or.inl h)⟩
          have hg3 : sig ≠ "error" := fun h => hn3 ⟨rfl, Or.inr (Or.inr h)⟩
          unfold iterationGateExecute
          dsimp only
          rw [show cfgIntD (gateTestConfig cI false true csf) "max_iterations_override" 0 = 0 from rfl]
          rw [show stateInt (gateTestState iter maxIter bs sig csf customVal) "iteration" 0 = iter from rfl]
          rw [show stateInt (gateTestState iter maxIter bs sig csf customVal) "max_iterations" 50 = maxIter from rfl]
          rw [if_neg (show ¬((0 : Int) > 0) from by norm_num)]
          rw [show cfgTruthy (gateTestConfig cI false true csf) "check_iteration" true = cI from rfl]
          rw [hs1]
          rw [if_neg (show ¬((false : Bool) = true) from by simp)]
          dsimp only
          rw [show cfgTruthy (gateTestConfig cI false true csf) "check_budget" true = false from rfl]
          rw [if_neg (show ¬((false : Bool) = true) from by simp)]
          dsimp only
          rw [show cfgTruthy (gateTestConfig cI false true csf) "check_completion" true = true from rfl]
          rw [if_pos (show ((true : Bool) = true) from rfl)]
          rw [show dictGet (gateTestState iter maxIter bs sig csf customVal) "completion_signal" = some (.str sig) from rfl]
          dsimp only
          rw [show (sig == CSignal.sComplete.value || sig == CSignal.sBlocked.value || sig == CSignal.sError.value) = false from by simp [hg1, hg2, hg3, CSignal.value]]
          rw [if_neg (show ¬((false : Bool) = true) from by simp)]
          dsimp only
          rw [show cfgStr (gateTestConfig cI false true csf) "custom_stop_field" "" = csf from rfl]
          rw [show (csf != "") = true from by simp [hcsf5]]
          rw [if_pos (show ((true : Bool) = true) from rfl)]
          rw [show dictGet (gateTestState iter maxIter bs sig csf customVal) csf = some customVal from by simp [gateTestState, dictGet, Ne.symm hcsf1, Ne.symm hcsf2, Ne.symm hcsf3, Ne.symm hcsf4]]
          dsimp only
          rw [htv]
          rw [if_pos (show ((true : Bool) = true) from rfl)]
          dsimp only
          rw [show dictGet (gateTestState iter maxIter bs sig csf customVal) "metadata" = dictGet [(csf, customVal)] "metadata" from rfl]
          rw [show dictGet [(csf, customVal)] "metadata" = none from by simp [dictGet, hcsf6]]

        | false =>
          unfold iterationGateExecute
          dsimp only
          rw [show cfgIntD (gateTestConfig cI false false csf) "max_iterations_override" 0 = 0 from rfl]
          rw [show stateInt (gateTestState iter maxIter bs sig csf customVal) "iteration" 0 = iter from rfl]
          rw [show stateInt (gateTestState iter maxIter bs sig csf customVal) "max_iterations" 50 = maxIter from rfl]
          rw [if_neg (show ¬((0 : Int) > 0) from by norm_num)]
          rw [show cfgTruthy (gateTestConfig cI false false csf) "check_iteration" true = cI from rfl]
          rw [hs1]
          rw [if_neg (show ¬((false : Bool) = true) from by simp)]
          dsimp only
          rw [show cfgTruthy (gateTestConfig cI false false csf) "check_budget" true = false from rfl]
          rw [if_neg (show ¬((false : Bool) = true) from by simp)]
          dsimp only
          rw [show cfgTruthy (gateTestConfig cI false false csf) "check_completion" true = false from rfl]
          rw [if_neg (show ¬((false : Bool) = true) from by simp)]
          dsimp only
          rw [show cfgStr (gateTestConfig cI false false csf) "custom_stop_field" "" = csf from rfl]
          rw [show (csf != "") = true from by simp [hcsf5]]
          rw [if_pos (show ((true : Bool) = true) from rfl)]
          rw [show dictGet (gateTestState iter maxIter bs sig csf customVal) csf = some customVal from by simp [gateTestState, dictGet, Ne.symm hcsf1, Ne.symm hcsf2, Ne.symm hcsf3, Ne.symm hcsf4]]
          dsimp only
          rw [htv]
          rw [if_pos (show ((true : Bool) = true) from rfl)]
          dsimp only
          rw [show dictGet (gateTestState iter maxIter bs sig csf customVal) "metadata" = dictGet [(csf, customVal)] "metadata" from rfl]
          rw [show dictGet [(csf, customVal)] "metadata" = none from by simp [dictGet, hcsf6]]

    constructor
    · rw [hexec, dictGet_dictSet_ne _ (by decide),
        dictGet_dictSet_ne _ (by decide), dictGet_dictSet_self]
    · rw [hexec, dictGet_dictSet_ne _ (by decide), dictGet_dictSet_self]
  · intro hn1 hn2 hn3 htv
    have hs1 : (cI && decide (iter ≥ maxIter)) = false := by
      cases cI with
      | false => rfl
      | true =>
        have hng : ¬ iter ≥ maxIter := fun hge => hn1 ⟨rfl, hge⟩
        simp [hng]
    have hexec : iterationGateExecute (gateTestState iter maxIter bs sig csf customVal)
        (gateTestConfig cI cB cC csf) =
        dictSet [] "gate_stop_reason" .null := by
      cases cB with
      | true =>
        have hb1 : bs ≠ "block" := fun h => hn2 ⟨rfl, Or.inl h⟩
        have hb2 : bs ≠ "overflow" := fun h => hn2 ⟨rfl, Or.inr h⟩
        cases cC with
        | true =>
          have hg1 : sig ≠ "complete" := fun h => hn3 ⟨rfl, Or.inl h⟩
          have hg2 : sig ≠ "blocked" := fun h => hn3 ⟨rfl, Or.inr (Or.inl h)⟩
          have hg3 : sig ≠ "error" := fun h => hn3 ⟨rfl, Or.inr (Or.inr h)⟩
          unfold iterationGateExecute
          dsimp only
          rw [show cfgIntD (gateTestConfig cI true true csf) "max_iterations_override" 0 = 0 from rfl]
          rw [show stateInt (gateTestState iter maxIter bs sig csf customVal) "iteration" 0 = iter from rfl]
          rw [show stateInt (gateTestState iter maxIter bs sig csf customVal) "max_iterations" 50 = maxIter from rfl]
          rw [if_neg (show ¬((0 : Int) > 0) from by norm_num)]
          rw [show cfgTruthy (gateTestConfig cI true true csf) "check_iteration" true = cI from rfl]
          rw [hs1]
          rw [if_neg (show ¬((false : Bool) = true) from by simp)]
          dsimp only
          rw [show cfgTruthy (gateTestConfig cI true true csf) "check_budget" true = true from rfl]
          rw [if_pos (show ((true : Bool) = true) from rfl)]
          rw [show dictGet (gateTestState iter maxIter bs sig csf customVal) "context_budget" = some (.dict [("status", .str bs)]) from rfl]
          dsimp only
          rw [show dictGet [("status", Value.str bs)] "status" = some (.str bs) from rfl]
          dsimp only
          rw [show (bs == "block" || bs == "overflow") = false from by simp [hb1, hb2]]
          rw [if_neg (show ¬((false : Bool) = true) from by simp)]
          dsimp only
          rw [show cfgTruthy (gateTestConfig cI true true csf) "check_completion" true = true from rfl]
          rw [if_pos (show ((true : Bool) = true) from rfl)]
          rw [show dictGet (gateTestState iter maxIter bs sig csf customVal) "completion_signal" = some (.str sig) from rfl]
          dsimp only
          rw [show (sig == CSignal.sComplete.value || sig == CSignal.sBlocked.value || sig == CSignal.sError.value) = false from by simp [hg1, hg2, hg3, CSignal.value]]
          rw [if_neg (show ¬((false : Bool) = true) from by simp)]
          dsimp only
          rw [show cfgStr (gateTestConfig cI true true csf) "custom_stop_field" "" = csf from rfl]
          rw [show (csf != "") = true from by simp [hcsf5]]
          rw [if_pos (show ((true : Bool) = true) from rfl)]
          rw [show dictGet (gateTestState iter maxIter bs sig csf customVal) csf = some customVal from by simp [gateTestState, dictGet, Ne.symm hcsf1, Ne.symm hcsf2, Ne.symm hcsf3, Ne.symm hcsf4]]
          dsimp only
          rw [htv]
          rw [if_neg (show ¬((false : Bool) = true) from by simp)]

        | false =>
          unfold iterationGateExecute
          dsimp only
          rw [show cfgIntD (gateTestConfig cI true false csf) "max_iterations_override" 0 = 0 from rfl]
          rw [show stateInt (gateTestState iter maxIter bs sig csf customVal) "iteration" 0 = iter from rfl]
          rw [show stateInt (gateTestState iter maxIter bs sig csf customVal) "max_iterations" 50 = maxIter from rfl]
          rw [if_neg (show ¬((0 : Int) > 0) from by norm_num)]
          rw [show cfgTruthy (gateTestConfig cI true false csf) "check_iteration" true = cI from rfl]
          rw [hs1]
          rw [if_neg (show ¬((false : Bool) = true) from by simp)]
          dsimp only
          rw [show cfgTruthy (gateTestConfig cI true false csf) "check_budget" true = true from rfl]
          rw [if_pos (show ((true : Bool) = true) from rfl)]
          rw [show dictGet (gateTestState iter maxIter bs sig csf customVal) "context_budget" = some (.dict [("status", .str bs)]) from rfl]
          dsimp only
          rw [show dictGet [("status", Value.str bs)] "status" = some (.str bs) from rfl]
          dsimp only
          rw [show (bs == "block" || bs == "overflow") = false from by simp [hb1, hb2]]
          rw [if_neg (show ¬((false : Bool) = true) from by simp)]
          dsimp only
          rw [show cfgTruthy (gateTestConfig cI true false csf) "check_completion" true = false from rfl]
          rw [if_neg (show ¬((false : Bool) = true) from by simp)]
          dsimp only
          rw [show cfgStr (gateTestConfig cI true false csf) "custom_stop_field" "" = csf from rfl]
          rw [show (csf != "") = true from by simp [hcsf5]]
          rw [if_pos (show ((true : Bool) = true) from rfl)]
          rw [show dictGet (gateTestState iter maxIter bs sig csf customVal) csf = some customVal from by simp [gateTestState, dictGet, Ne.symm hcsf1, Ne.symm hcsf2, Ne.symm hcsf3, Ne.symm hcsf4]]
          dsimp only
          rw [htv]
          rw [if_neg (show ¬((false : Bool) = true) from by simp)]

      | false =>
        cases cC with
        | true =>
          have hg1 : sig ≠ "complete" := fun h => hn3 ⟨rfl, Or.inl h⟩
          have hg2 : sig ≠ "blocked" := fun h => hn3 ⟨rfl, Or.inr (Or.inl h)⟩
          have hg3 : sig ≠ "error" := fun h => hn3 ⟨rfl, Or.inr (Or.inr h)⟩
          unfold iterationGateExecute
          dsimp only
          rw [show cfgIntD (gateTestConfig cI false true csf) "max_iterations_override" 0 = 0 from rfl]
          rw [show stateInt (gateTestState iter maxIter bs sig csf customVal) "iteration" 0 = iter from rfl]
          rw [show stateInt (gateTestState iter maxIter bs sig csf customVal) "max_iterations" 50 = maxIter from rfl]
          rw [if_neg (show ¬((0 : Int) > 0) from by norm_num)]
          rw [show cfgTruthy (gateTestConfig cI false true csf) "check_iteration" true = cI from rfl]
          rw [hs1]
          rw [if_neg (show ¬((false : Bool) = true) from by simp)]
          dsimp only
          rw [show cfgTruthy (gateTestConfig cI false true csf) "check_budget" true = false from rfl]
          rw [if_neg (show ¬((false : Bool) = true) from by simp)]
          dsimp only
          rw [show cfgTruthy (gateTestConfig cI false true csf) "check_completion" true = true from rfl]
          rw [if_pos (show ((true : Bool) = true) from rfl)]
          rw [show dictGet (gateTestState iter maxIter bs sig csf customVal) "completion_signal" = some (.str sig) from rfl]
          dsimp only
          rw [show (sig == CSignal.sComplete.value || sig == CSignal.sBlocked.value || sig == CSignal.sError.value) = false from by simp [hg1, hg2, hg3, CSignal.value]]
          rw [if_neg (show ¬((false : Bool) = true) from by simp)]
          dsimp only
          rw [show cfgStr (gateTestConfig cI false true csf) "custom_stop_field" "" = csf from rfl]
          rw [show (csf != "") = true from by simp [hcsf5]]
          rw [if_pos (show ((true : Bool) = true) from rfl)]
          rw [show dictGet (gateTestState iter maxIter bs sig csf customVal) csf = some customVal from by simp [gateTestState, dictGet, Ne.symm hcsf1, Ne.symm hcsf2, Ne.symm hcsf3, Ne.symm hcsf4]]
          dsimp only
          rw [htv]
          rw [if_neg (show ¬((false : Bool) = true) from by simp)]

        | false =>
          unfold iterationGateExecute
          dsimp only
          rw [show cfgIntD (gateTestConfig cI false false csf) "max_iterations_override" 0 = 0 from rfl]
          rw [show stateInt (gateTestState iter maxIter bs sig csf customVal) "iteration" 0 = iter from rfl]
          rw [show stateInt (gateTestState iter maxIter bs sig csf customVal) "max_iterations" 50 = maxIter from rfl]
          rw [if_neg (show ¬((0 : Int) > 0) from by norm_num)]
          rw [show cfgTruthy (gateTestConfig cI false false csf) "check_iteration" true = cI from rfl]
          rw [hs1]
          rw [if_neg (show ¬((false : Bool) = true) from by simp)]
          dsimp only
          rw [show cfgTruthy (gateTestConfig cI false false csf) "check_budget" true = false from rfl]
          rw [if_neg (show ¬((false : Bool) = true) from by simp)]
          dsimp only
          rw [show cfgTruthy (gateTestConfig cI false false csf) "check_completion" true = false from rfl]
          rw [if_neg (show ¬((false : Bool) = true) from by simp)]
          dsimp only
          rw [show cfgStr (gateTestConfig cI false false csf) "custom_stop_field" "" = csf from rfl]
          rw [show (csf != "") = true from by simp [hcsf5]]
          rw [if_pos (show ((true : Bool) = true) from rfl)]
          rw [show dictGet (gateTestState iter maxIter bs sig csf customVal) csf = some customVal from by simp [gateTestState, dictGet, Ne.symm hcsf1, Ne.symm hcsf2, Ne.symm hcsf3, Ne.symm hcsf4]]
          dsimp only
          rw [htv]
          rw [if_neg (show ¬((false : Bool) = true) from by simp)]

    constructor
    · rw [hexec, dictGet_dictSet_ne _ (by decide)]
      rfl
    · rw [hexec, dictGet_dictSet_self]
  · intro st2
    unfold iterationGateRoute
    by_cases hb : (truthyOpt (dictGet st2 "is_complete") ||
        truthyOpt (dictGet st2 "error")) = true
    · rw [if_pos hb]
      simp only [Bool.or_eq_true] at hb
      simp [hb]
    · rw [if_neg hb]
      simp only [Bool.or_eq_true] at hb
      push_neg at hb
      simp [hb.1, hb.2]

/-- C4 witness: all checks enabled, the iteration limit reached at 3/3 —
the delta marks completion; and routing on explicit states. -/
theorem iterationGate_ordered_checks_witness :
    dictGet (iterationGateExecute
        (gateTestState 3 3 "ok" "none" "stop_flag" .null)
        (gateTestConfig true true true "stop_flag")) "is_complete" =
      some (.bool true)
    ∧ iterationGateRoute [("is_complete", .bool true)] = "stop"
    ∧ iterationGateRoute [] = "continue" := by
  have h := iterationGate_ordered_checks 3 3 "ok" "none" Value.null
    true true true "stop_flag" (by decide) (by decide) (by decide)
    (by decide) (by decide) (by decide)
  refine ⟨(h.1 rfl (by norm_num)).1, ?_, rfl⟩
  exact (h.2.2.2.2.2 [("is_complete", .bool true)]).mpr (Or.inl rfl)

/-- The routing closure a `conditional_router` pass-through node carries
(empty route map, so every state routes to the default port). -/
def passRouteFn : PyDict → String := condRouterRoute "difficulty" "default" []

/-- The per-node function the compiler registers for a pass-through
router instance with empty config. -/
def chainNodeFn : PyDict → PyDict := fun st => condRouterExecute st []

/-- The instance-id → node-type view of a straight-line workflow
start → n1 → … → n5 → end. -/
def chainInstanceTypes : List (String × String) :=
  [("start", "start"), ("n1", "conditional_router"),
   ("n2", "conditional_router"), ("n3", "conditional_router"),
   ("n4", "conditional_router"), ("n5", "conditional_router"),
   ("end", "end")]

/-- The compiled graph of that workflow: each node has a single outgoing
edge, so `compile` wires every source with a plain direct edge (the
wiring below is literally `wireSource`'s output on each edge group). -/
def chain5 : CompiledGraph where
  entry := "n1"
  nodes := [("n1", chainNodeFn), ("n2", chainNodeFn), ("n3", chainNodeFn),
    ("n4", chainNodeFn), ("n5", chainNodeFn)]
  wiring :=
    [("n1", wireSource (some passRouteFn) chainInstanceTypes
        [⟨"n1", "n2", none⟩]),
     ("n2", wireSource (some passRouteFn) chainInstanceTypes
        [⟨"n2", "n3", none⟩]),
     ("n3", wireSource (some passRouteFn) chainInstanceTypes
        [⟨"n3", "n4", none⟩]),
     ("n4", wireSource (some passRouteFn) chainInstanceTypes
        [⟨"n4", "n5", none⟩]),
     ("n5", wireSource (some passRouteFn) chainInstanceTypes
        [⟨"n5", "end", none⟩])]

/-- C1 counterexample: a run of the five-node straight-line workflow with
`max_iterations = 1` performs 5 node invocations — more than the claimed
budget `max_iterations × 4 = 4` — and terminates normally, with no error
and no Runaway failure of any kind. -/
theorem workflowRun_exceeds_runaway_cap :
    (workflowRun chain5 "task" 1 100).map (fun p => p.2) = some 5
    ∧ (workflowRun chain5 "task" 1 100).map
        (fun p => dictGet p.1 "error") = some (some .null)
    ∧ (workflowRun chain5 "task" 1 100).map
        (fun p => dictGet p.1 "is_complete") = some (some (.bool false))
    ∧ 1 * 4 < 5 := by
  exact ⟨rfl, rfl, rfl, by norm_num⟩

/-- C1 (amended): `WorkflowExecutor.run` enforces no step budget — it
hands the initial state to the compiled graph with no recursion limit or
cap configured, so the number of node invocations is fixed by the graph
walk alone: the five-node chain always runs exactly 5 nodes and finishes
without error, for EVERY `max_iterations` value (bounding a run is the
job of iteration-gate nodes, not of the runtime). -/
theorem workflowRun_no_step_budget (input : String) (maxIter : Int) :
    workflowRun chain5 input maxIter 100 =
      some (dictSet (makeInitialAutonomousState input maxIter)
        "current_step" (.str "routed"), 5) := by
  rfl


end GenY
